import Mathlib

/-!
Verification of the osiris-platform manifest-resolution and artifact-emission
pipeline. The definitions below are a shallow embedding of `src/manifest.rs`
and `src/op/emerge.rs` (plus the platform-directory selection of
`src/op/build.rs`). Machine integers (`u32`) are modelled as `Nat` (no claim
involves overflow), Rust `Option`/`Result` as `Option`/`Except`, and the
filesystem as a partial map from component lists to entries.
-/

set_option autoImplicit false

/-! ### Data model (`src/manifest.rs`) -/

/-- View-generation errors: `ErrorView` in `manifest.rs`. `MissingKey` carries
the key path exactly as in the source. -/
inductive ErrorView where
  | MissingKey (key : String)
deriving DecidableEq

/-- Raw `[application]` table: `RawApplication` in `manifest.rs`. -/
structure RawApplication where
  id : Option String
  name : Option String
  path : Option String
  package : Option String
deriving DecidableEq

/-- Raw `[platform.android]` table: `RawPlatformAndroid` in `manifest.rs`.
The field `nspace` models the source field `namespace` (a Lean keyword). -/
structure RawPlatformAndroid where
  application_id : Option String
  nspace : Option String
  compile_sdk : Option Nat
  min_sdk : Option Nat
  target_sdk : Option Nat
  ndk_level : Option Nat
  version_code : Option Nat
  version_name : Option String
  sdk_path : Option String
deriving DecidableEq

/-- Platform configuration variants: `RawPlatformConfiguration` in
`manifest.rs`. Android is currently the only variant. -/
inductive RawPlatformConfiguration where
  | Android (a : RawPlatformAndroid)
deriving DecidableEq

/-- Raw `[[platform]]` entry: `RawPlatform` in `manifest.rs`. -/
structure RawPlatform where
  id : String
  path : Option String
  configuration : Option RawPlatformConfiguration
deriving DecidableEq

/-- Raw manifest content: `Raw` in `manifest.rs`. -/
structure Raw where
  version : Nat
  application : Option RawApplication
  platform : List RawPlatform
deriving DecidableEq

/-- Resolved android view: `ViewPlatformAndroid` in `manifest.rs`.
`nspace` models the source field `namespace`. -/
structure ViewPlatformAndroid where
  application_id : String
  nspace : String
  compile_sdk : Nat
  min_sdk : Nat
  target_sdk : Nat
  ndk_level : Nat
  version_code : Nat
  version_name : String
  sdk_path : String
deriving DecidableEq

/-- Validated manifest: `Manifest` in `manifest.rs` (raw content plus the
"verified" marker). -/
structure Manifest where
  raw : Raw
deriving DecidableEq

/-- Android configuration accessor: `RawPlatform::android`. -/
def RawPlatform.android (p : RawPlatform) : Option RawPlatformAndroid :=
  match p.configuration with
  | some (RawPlatformConfiguration.Android a) => some a
  | none => none

/-- Platform path with default: `RawPlatform::path()` in `manifest.rs`
(renamed, since the raw field of the same name is also modelled). The
default is `./platform/<id>`. -/
def RawPlatform.pathOrDefault (p : RawPlatform) : String :=
  match p.path with
  | some s => s
  | none => "./platform/" ++ p.id

/-! ### Validator (`Manifest::parse_raw`) -/

/-- Control-character test used by the validator. Rust `char::is_control`
is the Unicode Cc category, exactly U+0000 -- U+001F and U+007F -- U+009F. -/
def charIsControl (c : Char) : Bool :=
  c.toNat < 32 || (127 ≤ c.toNat && c.toNat ≤ 159)

/-- Identifier test: `Manifest::is_identifier`. Rust `char::is_alphanumeric`
covers the full Unicode alphanumeric class; the claims touched by this
predicate only exercise ASCII inputs, on which `Char.isAlphanum` agrees. -/
def Manifest.is_identifier (s : String) : Bool :=
  !s.isEmpty && s.toList.all (fun c => c.isAlphanum || c = '-' || c = '_')

/-- Quoting-safety test: `Manifest::is_quotable`. Rejects control characters
and the code points 92 (backslash), 39 (single quote), 34 (double quote). -/
def Manifest.is_quotable (s : String) : Bool :=
  s.toList.all (fun c =>
    !charIsControl c && c.toNat ≠ 92 && c.toNat ≠ 39 && c.toNat ≠ 34)

/-- SDK-path test from `Manifest::parse_raw`: no control characters and no
newline (code point 10). -/
def sdkPathOk (s : String) : Bool :=
  s.toList.all (fun c => !charIsControl c && c.toNat ≠ 10)

/-- Android-table checks of `Manifest::parse_raw` for one platform entry. -/
def androidQuotableOk (a : RawPlatformAndroid) : Bool :=
  a.application_id.all Manifest.is_quotable
    && a.nspace.all Manifest.is_quotable
    && a.version_name.all Manifest.is_quotable
    && a.sdk_path.all sdkPathOk

/-- Validator: `Manifest::parse_raw`. Every violation returns the same
information-free error, exactly as the source's `Result<Self, ()>`. The
source short-circuits on the first violation; since all failures yield the
same `()` value, the boolean conjunction below is observationally equal. -/
def Manifest.parse_raw (raw : Raw) : Except Unit Manifest :=
  if raw.version ≠ 1 then Except.error ()
  else if !(raw.application.all fun app =>
      app.id.all Manifest.is_identifier && app.name.all Manifest.is_quotable) then
    Except.error ()
  else if !(raw.platform.all fun p =>
      match p.android with
      | some a => androidQuotableOk a
      | none => true) then
    Except.error ()
  else Except.ok { raw := raw }

/-! ### View resolver (`RawPlatformAndroid::view`) -/

/-- SDK-triple resolution: the `match (self.min_sdk, self.target_sdk,
self.compile_sdk)` expression of `RawPlatformAndroid::view`, lines 251--277
of `manifest.rs`. Result order is `(min, target, compile)`. -/
def sdkTriple (min tar com : Option Nat) : Except ErrorView (Nat × Nat × Nat) :=
  match min, tar, com with
  | none, none, none => Except.error (ErrorView.MissingKey ".min-sdk")
  | some m, none, none => Except.ok (m, m, m)
  | none, some t, none => Except.ok (t, t, t)
  | none, none, some c => Except.ok (c, c, c)
  | some m, some t, none => Except.ok (m, t, t)
  | some m, none, some c => Except.ok (m, c, c)
  | none, some t, some c => Except.ok (t, t, c)
  | some m, some t, some c => Except.ok (m, t, c)

/-- Application-id resolution inside `RawPlatformAndroid::view`: the
platform-level value, falling back to the manifest `application.id`. -/
def resolvedAppId (a : RawPlatformAndroid) (raw : Raw) : Option String :=
  match a.application_id with
  | some v => some v
  | none => raw.application.bind fun app => app.id

/-- View resolution: `RawPlatformAndroid::view` in `manifest.rs`. Required
fields are checked in source order: namespace, application-id, the SDK
triple, ndk-level, sdk-path; `version_code` defaults to `1` and
`version_name` to `"0.1.0"`. -/
def RawPlatformAndroid.view (a : RawPlatformAndroid) (raw : Raw) :
    Except ErrorView ViewPlatformAndroid :=
  match a.nspace with
  | none => Except.error (ErrorView.MissingKey ".namespace")
  | some ns =>
  match resolvedAppId a raw with
  | none => Except.error (ErrorView.MissingKey ".application-id")
  | some appid =>
  match sdkTriple a.min_sdk a.target_sdk a.compile_sdk with
  | Except.error e => Except.error e
  | Except.ok (min, tar, com) =>
  match a.ndk_level with
  | none => Except.error (ErrorView.MissingKey ".ndk-level")
  | some ndk =>
  let vc := a.version_code.getD 1
  let vn := a.version_name.getD "0.1.0"
  match a.sdk_path with
  | none => Except.error (ErrorView.MissingKey ".sdk-path")
  | some sp =>
  Except.ok {
    application_id := appid
    nspace := ns
    compile_sdk := com
    min_sdk := min
    target_sdk := tar
    ndk_level := ndk
    version_code := vc
    version_name := vn
    sdk_path := sp
  }

/-! ### Filesystem model (`src/op/emerge.rs`)

Paths are lists of components; the filesystem is a partial map from paths
to entries. `PathBuf::push`/`pop` become list append/`dropLast`; a pushed
string containing `/` (the platform path, the dotted namespace turned into
a path) is split into components. -/

/-- A filesystem entry: a directory or a regular file with its content. -/
inductive Entry where
  | dir
  | file (content : String)
deriving DecidableEq

/-- A filesystem: partial map from component paths to entries. -/
def FS : Type := List String → Option Entry

/-- Point update of a filesystem. -/
def setFS (fs : FS) (p : List String) (e : Option Entry) : FS :=
  fun q => if q = p then e else fs q

/-- Split a character list at a separator, keeping empty pieces: the
component splitter underlying `pathComponents` and `nsComponents`
(structurally recursive so that concrete paths evaluate). -/
def splitChars (sep : Char) : List Char → List (List Char)
  | [] => [[]]
  | c :: cs =>
    if c = sep then [] :: splitChars sep cs
    else
      match splitChars sep cs with
      | g :: gs => (c :: g) :: gs
      | [] => [[c]]

/-- Split a path string into components: models pushing a slash-separated
string onto a `PathBuf`. -/
def pathComponents (s : String) : List String :=
  (splitChars (Char.ofNat 47) s.toList).map fun cs => String.mk cs

/-- Emerge errors: `Error` in `op/emerge.rs`. The wrapped `std::io::Error`
payloads are dropped; the offending path is kept. -/
inductive EmergeError where
  | Already
  | ManifestKey (key : String)
  | PlatformDirectory (path : List String)
  | DirectoryCreation (path : List String)
  | FileUpdate (path : List String)
  | FileRemoval (path : List String)
deriving DecidableEq

/-- Create the directory chain `base ++ [c]`, `base ++ [c, c']`, ... for
every component of `rest`, failing (like `std::fs::create_dir_all`) when a
chain node exists as a regular file. On failure the input filesystem is
returned unchanged (the real call may leave a partially-created directory
chain; only directories could differ, never file entries). -/
def mkdirChain (fs : FS) (base : List String) (rest : List String) : Option FS :=
  match rest with
  | [] => some fs
  | c :: cs =>
    match fs (base ++ [c]) with
    | some (Entry.file _) => none
    | some Entry.dir => mkdirChain fs (base ++ [c]) cs
    | none => mkdirChain (setFS fs (base ++ [c]) (some Entry.dir)) (base ++ [c]) cs

/-- `std::fs::create_dir_all` from the root: used by `ensure_dir` in
`op/emerge.rs`. -/
def createDirAll (fs : FS) (p : List String) : Option FS :=
  mkdirChain fs [] p

/-- Content-diffed file update: `update_file` in `op/emerge.rs`. Open (or
create) the file, read it, and write only if the content differs, so an
unchanged file is left untouched. Opening fails when the path is a
directory, or on creation when the parent is not a directory. -/
def updateFile (fs : FS) (p : List String) (c : String) : FS × Option EmergeError :=
  match fs p with
  | some Entry.dir => (fs, some (EmergeError.FileUpdate p))
  | some (Entry.file old) =>
    if old = c then (fs, none) else (setFS fs p (some (Entry.file c)), none)
  | none =>
    match fs p.dropLast with
    | some Entry.dir => (setFS fs p (some (Entry.file c)), none)
    | _ => (fs, some (EmergeError.FileUpdate p))

/-- Remove a file, ignoring a missing file: `unlink_file` in `op/emerge.rs`.
Removing a directory with `remove_file` fails (and not with `NotFound`), so
it surfaces as `FileRemoval`. -/
def unlinkFile (fs : FS) (p : List String) : FS × Option EmergeError :=
  match fs p with
  | none => (fs, none)
  | some (Entry.file _) => (setFS fs p none, none)
  | some Entry.dir => (fs, some (EmergeError.FileRemoval p))

/-! ### Generated file contents (the templates in `op/emerge.rs`) -/

/-- Single-quote character as a string, for the Gradle templates. -/
def sQuote : String := String.singleton (Char.ofNat 39)

/-- Content of `gradle.properties`: `emerge_android_gradle_properties`. -/
def gradlePropertiesContent : String :=
  "# Generated by osiris-platform\norg.gradle.jvmargs=-Xmx2048m -Dfile.encoding=UTF-8\nandroid.useAndroidX=true\nandroid.nonTransitiveRClass=true\n"

/-- Content of `local.properties`: `emerge_android_local_properties`. -/
def localPropertiesContent (sdk_path : String) : String :=
  "# Generated by osiris-platform\nsdk.dir=" ++ sdk_path ++ "\n"

/-- Content of `settings.gradle`: `emerge_android_settings_gradle`. -/
def settingsGradleContent (appid : String) : String :=
  "// Generated by osiris-platform\npluginManagement \x7b\n    repositories \x7b\n        google()\n        mavenCentral()\n        gradlePluginPortal()\n    \x7d\n\x7d\ndependencyResolutionManagement \x7b\n    repositoriesMode.set(RepositoriesMode.FAIL_ON_PROJECT_REPOS)\n    repositories \x7b\n        google()\n        mavenCentral()\n    \x7d\n\x7d\nrootProject.name = " ++ sQuote ++ appid ++ sQuote ++ "\n"

/-- Content of `build.gradle`: `emerge_android_build_gradle`. -/
def buildGradleContent (android_application_id nspace : String)
    (compile_sdk min_sdk target_sdk version_code : Nat)
    (version_name : String) : String :=
  "// Generated by osiris-platform\nplugins \x7b\n    id " ++ sQuote ++ "com.android.application" ++ sQuote ++ " version " ++ sQuote ++ "8.0.2" ++ sQuote ++ "\n\x7d\n\nandroid \x7b\n    namespace " ++ sQuote ++ nspace ++ sQuote ++ "\n    compileSdk " ++ toString compile_sdk ++ "\n\n    defaultConfig \x7b\n        applicationId " ++ sQuote ++ android_application_id ++ sQuote ++ "\n        minSdk " ++ toString min_sdk ++ "\n        targetSdk " ++ toString target_sdk ++ "\n        versionCode " ++ toString version_code ++ "\n        versionName " ++ sQuote ++ version_name ++ sQuote ++ "\n\n        testInstrumentationRunner " ++ sQuote ++ "androidx.test.runner.AndroidJUnitRunner" ++ sQuote ++ "\n    \x7d\n\n    buildTypes \x7b\n        release \x7b\n            minifyEnabled false\n        \x7d\n    \x7d\n    compileOptions \x7b\n        sourceCompatibility JavaVersion.VERSION_1_8\n        targetCompatibility JavaVersion.VERSION_1_8\n    \x7d\n\x7d\n\ndependencies \x7b\n    implementation " ++ sQuote ++ "androidx.appcompat:appcompat:1.6.1" ++ sQuote ++ "\n    implementation " ++ sQuote ++ "com.google.android.material:material:1.9.0" ++ sQuote ++ "\n    implementation " ++ sQuote ++ "androidx.constraintlayout:constraintlayout:2.1.4" ++ sQuote ++ "\n    testImplementation " ++ sQuote ++ "junit:junit:4.13.2" ++ sQuote ++ "\n    androidTestImplementation " ++ sQuote ++ "androidx.test.ext:junit:1.1.5" ++ sQuote ++ "\n    androidTestImplementation " ++ sQuote ++ "androidx.test.espresso:espresso-core:3.5.1" ++ sQuote ++ "\n\x7d\n"

/-- Content of `src/main/AndroidManifest.xml`: `emerge_android_manifest`. -/
def androidManifestContent (appid : String) : String :=
  "<?xml version=\"1.0\" encoding=\"utf-8\"?>\n<!-- Generated by osiris-platform -->\n<manifest\n    xmlns:android=\"http://schemas.android.com/apk/res/android\"\n    xmlns:tools=\"http://schemas.android.com/tools\">\n\n    <application\n        android:allowBackup=\"true\"\n        android:label=\"@string/app_name\"\n        android:supportsRtl=\"true\"\n        android:theme=\"@style/Theme." ++ appid ++ "\">\n        <activity\n            android:name=\".MainActivity\"\n            android:exported=\"true\">\n            <intent-filter>\n                <action android:name=\"android.intent.action.MAIN\" />\n                <category android:name=\"android.intent.category.LAUNCHER\" />\n            </intent-filter>\n        </activity>\n    </application>\n</manifest>\n"

/-- Content of `src/main/res/layout/activity_main.xml`:
`emerge_android_activity_main`. -/
def activityMainContent : String :=
  "<?xml version=\"1.0\" encoding=\"utf-8\"?>\n<!-- Generated by osiris-platform -->\n<androidx.constraintlayout.widget.ConstraintLayout\n    xmlns:android=\"http://schemas.android.com/apk/res/android\"\n    xmlns:app=\"http://schemas.android.com/apk/res-auto\"\n    xmlns:tools=\"http://schemas.android.com/tools\"\n    android:layout_width=\"match_parent\"\n    android:layout_height=\"match_parent\"\n    tools:context=\".MainActivity\">\n\n    <TextView\n        android:layout_width=\"wrap_content\"\n        android:layout_height=\"wrap_content\"\n        android:text=\"Hello World!\"\n        app:layout_constraintBottom_toBottomOf=\"parent\"\n        app:layout_constraintEnd_toEndOf=\"parent\"\n        app:layout_constraintStart_toStartOf=\"parent\"\n        app:layout_constraintTop_toTopOf=\"parent\" />\n</androidx.constraintlayout.widget.ConstraintLayout>\n"

/-- Content of `src/main/res/values/strings.xml`: `emerge_android_strings`.
The application name is substituted verbatim; the template performs no
XML escaping. -/
def stringsContent (name : String) : String :=
  "<!-- Generated by osiris-platform -->\n<resources>\n    <string name=\"app_name\">" ++ name ++ "</string>\n</resources>\n"

/-- Content of `src/main/res/values/themes.xml`: `emerge_android_themes`. -/
def themesContent (appid : String) : String :=
  "<!-- Generated by osiris-platform -->\n<resources xmlns:tools=\"http://schemas.android.com/tools\">\n    <style name=\"Theme." ++ appid ++ "\" parent=\"Theme.Material3.DayNight.NoActionBar\">\n    </style>\n</resources>\n"

/-- Content of `src/main/java/<ns>/MainActivity.java`:
`emerge_android_main_activity`. -/
def mainActivityContent (nspace : String) : String :=
  "// Generated by osiris-platform\npackage " ++ nspace ++ ";\n\nimport androidx.appcompat.app.AppCompatActivity;\n\nimport android.os.Bundle;\n\npublic class MainActivity extends AppCompatActivity \x7b\n    @Override\n    protected void onCreate(Bundle savedInstanceState) \x7b\n        super.onCreate(savedInstanceState);\n        setContentView(R.layout.activity_main);\n    \x7d\n\x7d\n"

/-! ### The emerge operation (`op/emerge.rs`) -/

/-- A single filesystem effect of `emerge_android`. -/
inductive FileOp where
  | write (p : List String) (content : String)
  | unlink (p : List String)
  | mkdirAll (p : List String)
deriving DecidableEq

/-- Interpret one effect: `update_file`, `unlink_file`, `ensure_dir`. -/
def runOp (fs : FS) : FileOp → FS × Option EmergeError
  | FileOp.write p c => updateFile fs p c
  | FileOp.unlink p => unlinkFile fs p
  | FileOp.mkdirAll p =>
    match createDirAll fs p with
    | some fs' => (fs', none)
    | none => (fs, some (EmergeError.DirectoryCreation p))

/-- Run a sequence of effects, stopping at the first error. -/
def runOps (fs : FS) : List FileOp → FS × Option EmergeError
  | [] => (fs, none)
  | op :: rest =>
    match runOp fs op with
    | (fs', none) => runOps fs' rest
    | (fs', some e) => (fs', some e)

/-- Java source directory for a namespace: `namespace.replace(".", "/")`
joined onto the path, i.e. the dot-separated components (separator is
code point 46, the dot). -/
def nsComponents (nspace : String) : List String :=
  (splitChars (Char.ofNat 46) nspace.toList).map fun cs => String.mk cs

/-- The straight-line effect sequence of `emerge_android` (lines 535--596 of
`op/emerge.rs`), in source order: the four root files (`local.properties`
written when an SDK path is configured, removed otherwise), the `src/main`
tree, and the namespace-directory Java source. -/
def androidOps (path : List String) (name appid android_appid nspace : String)
    (compile_sdk min_sdk target_sdk version_code : Nat) (version_name : String)
    (sdk_path : Option String) : List FileOp :=
  [ FileOp.write (path ++ ["gradle.properties"]) gradlePropertiesContent,
    (match sdk_path with
     | some v => FileOp.write (path ++ ["local.properties"]) (localPropertiesContent v)
     | none => FileOp.unlink (path ++ ["local.properties"])),
    FileOp.write (path ++ ["settings.gradle"]) (settingsGradleContent appid),
    FileOp.write (path ++ ["build.gradle"])
      (buildGradleContent android_appid nspace compile_sdk min_sdk target_sdk
        version_code version_name),
    FileOp.mkdirAll (path ++ ["src"]),
    FileOp.mkdirAll (path ++ ["src", "main"]),
    FileOp.write (path ++ ["src", "main", "AndroidManifest.xml"])
      (androidManifestContent appid),
    FileOp.mkdirAll (path ++ ["src", "main", "res"]),
    FileOp.mkdirAll (path ++ ["src", "main", "res", "layout"]),
    FileOp.write (path ++ ["src", "main", "res", "layout", "activity_main.xml"])
      activityMainContent,
    FileOp.mkdirAll (path ++ ["src", "main", "res", "values"]),
    FileOp.write (path ++ ["src", "main", "res", "values", "strings.xml"])
      (stringsContent name),
    FileOp.write (path ++ ["src", "main", "res", "values", "themes.xml"])
      (themesContent appid),
    FileOp.mkdirAll (path ++ ["src", "main", "java"] ++ nsComponents nspace),
    FileOp.write (path ++ ["src", "main", "java"] ++ nsComponents nspace
      ++ ["MainActivity.java"]) (mainActivityContent nspace) ]

/-- Android backend of emerge: `emerge_android` in `op/emerge.rs`. The raw
manifest keys are fetched and unwrapped in source order -- note that this
reads the raw tables directly and applies none of the view defaults; only
`sdk-path` is optional. Afterwards the effect sequence runs. -/
def emergeAndroid (manifest : Manifest) (android : RawPlatformAndroid)
    (path : List String) (fs : FS) : FS × Option EmergeError :=
  match manifest.raw.application.bind (fun a => a.name) with
  | none => (fs, some (EmergeError.ManifestKey "application.name"))
  | some name =>
  match manifest.raw.application.bind (fun a => a.id) with
  | none => (fs, some (EmergeError.ManifestKey "application.id"))
  | some appid =>
  match android.application_id with
  | none => (fs, some (EmergeError.ManifestKey "platform.android.application-id"))
  | some aid =>
  match android.nspace with
  | none => (fs, some (EmergeError.ManifestKey "platform.android.namespace"))
  | some ns =>
  match android.compile_sdk with
  | none => (fs, some (EmergeError.ManifestKey "platform.android.compile-sdk"))
  | some compile =>
  match android.min_sdk with
  | none => (fs, some (EmergeError.ManifestKey "platform.android.min-sdk"))
  | some min =>
  match android.target_sdk with
  | none => (fs, some (EmergeError.ManifestKey "platform.android.target-sdk"))
  | some tar =>
  match android.version_code with
  | none => (fs, some (EmergeError.ManifestKey "platform.android.version-code"))
  | some vc =>
  match android.version_name with
  | none => (fs, some (EmergeError.ManifestKey "platform.android.version-name"))
  | some vn =>
  runOps fs (androidOps path name appid aid ns compile min tar vc vn android.sdk_path)

/-- Platform dispatch at the end of `emerge`: the Android handler for an
Android configuration, success for a platform without configuration. -/
def emergePlatform (manifest : Manifest) (platform : RawPlatform)
    (tgt : List String) (fs : FS) : FS × Option EmergeError :=
  match platform.configuration with
  | some (RawPlatformConfiguration.Android a) => emergeAndroid manifest a tgt fs
  | none => (fs, none)

/-- Emerge against a known target directory: the directory state machine of
`emerge` (lines 634--658 of `op/emerge.rs`): an existing non-directory
fails, an existing directory fails with `Already` unless updates are
allowed, a missing directory is created. -/
def emergeAt (manifest : Manifest) (platform : RawPlatform)
    (tgt : List String) (update : Bool) (fs : FS) : FS × Option EmergeError :=
  match fs tgt with
  | some (Entry.file _) => (fs, some (EmergeError.PlatformDirectory tgt))
  | some Entry.dir =>
    if update then emergePlatform manifest platform tgt fs
    else (fs, some EmergeError.Already)
  | none =>
    match createDirAll fs tgt with
    | none => (fs, some (EmergeError.DirectoryCreation tgt))
    | some fs' => emergePlatform manifest platform tgt fs'

/-- The emerge operation: `emerge` in `op/emerge.rs`. The target directory
is the caller override when given, otherwise the manifest platform path
(`RawPlatform::path()` with its `./platform/<id>` default). -/
def emerge (manifest : Manifest) (platform : RawPlatform)
    (path_override : Option (List String)) (update : Bool) (fs : FS) :
    FS × Option EmergeError :=
  emergeAt manifest platform
    (match path_override with
     | some p => p
     | none => pathComponents platform.pathOrDefault) update fs

/-! ### Build-side platform-directory selection (`src/op/build.rs`) -/

/-- External build-tool metadata. Modelled from the spec: the collaborating
metadata query supplies a target-directory path used as the build scratch
root (`crate::cargo::Metadata` is not among the sources; only its
`target_directory` field is used by `build`). -/
structure Metadata where
  target_directory : String
deriving DecidableEq

/-- Build errors: the filesystem-related variants of `Error` in
`op/build.rs` (the subprocess variants `Exec` and `Build` belong to the
unmodelled gradle invocation). -/
inductive BuildError where
  | ManifestKey (key : String)
  | PlatformDirectory (path : List String)
  | DirectoryCreation (path : List String)
  | FileUpdate (path : List String)
  | FileRemoval (path : List String)
deriving DecidableEq

/-- Error mapping applied by `build` to the result of its ephemeral emerge
(`op/build.rs` lines 262--279). `Already` is unreachable there -- emerging
with updates allowed never yields it -- and the source panics on it; it is
mapped arbitrarily. -/
def mapEmergeError : EmergeError → BuildError
  | EmergeError.Already => BuildError.PlatformDirectory []
  | EmergeError.ManifestKey k => BuildError.ManifestKey k
  | EmergeError.PlatformDirectory p => BuildError.PlatformDirectory p
  | EmergeError.DirectoryCreation p => BuildError.DirectoryCreation p
  | EmergeError.FileUpdate p => BuildError.FileUpdate p
  | EmergeError.FileRemoval p => BuildError.FileRemoval p

/-- Platform-directory determination of `build` (`op/build.rs` lines
219--283): use the manifest-declared platform path when it exists as a
directory; otherwise fabricate `<target>/osiris/platform/<id>` and emerge
an ephemeral integration into it with updates allowed. The subsequent
gradle invocation is outside the model; the function returns the
authoritative directory handed to it. -/
def buildEphPath (metadata : Metadata) (platform : RawPlatform) : List String :=
  pathComponents metadata.target_directory ++ ["osiris", "platform", platform.id]

def buildPlatformDir (manifest : Manifest) (metadata : Metadata)
    (platform : RawPlatform) (fs : FS) : FS × Except BuildError (List String) :=
  match fs (pathComponents platform.pathOrDefault) with
  | some (Entry.file _) =>
    (fs, Except.error (BuildError.PlatformDirectory (pathComponents platform.pathOrDefault)))
  | some Entry.dir => (fs, Except.ok (pathComponents platform.pathOrDefault))
  | none =>
    match createDirAll fs (buildEphPath metadata platform) with
    | none => (fs, Except.error (BuildError.DirectoryCreation (buildEphPath metadata platform)))
    | some fs1 =>
      match emerge manifest platform (some (buildEphPath metadata platform)) true fs1 with
      | (fs2, none) => (fs2, Except.ok (buildEphPath metadata platform))
      | (fs2, some e) => (fs2, Except.error (mapEmergeError e))

/-! ### Auxiliary predicates for the emission proofs -/

/-- `PathLe p q`: the path `p` is a (not necessarily strict) ancestor of
`q`, i.e. a list prefix. -/
def PathLe (p q : List String) : Prop := ∃ r, q = p ++ r

/-- The set of paths an effect can alter: the written or removed file, or
any directory-chain node (nonempty ancestors) of a created directory. -/
def touches : FileOp → List String → Prop
  | FileOp.write p _, q => q = p
  | FileOp.unlink p, q => q = p
  | FileOp.mkdirAll p, q => q ≠ [] ∧ PathLe q p

/-- Two filesystems agree on every regular file (directories may differ). -/
def filesEq (fs fs' : FS) : Prop :=
  ∀ q c, fs' q = some (Entry.file c) ↔ fs q = some (Entry.file c)

/-- The file path an effect writes or removes, if any. -/
def fileAt : FileOp → Option (List String)
  | FileOp.write p _ => some p
  | FileOp.unlink p => some p
  | FileOp.mkdirAll _ => none

/-- Separation of an effect sequence: no written or removed file path is
touched by a later effect. The emerge effect sequences satisfy this, which
makes a successful run a fixpoint when re-run. -/
def SepOps (ops : List FileOp) : Prop :=
  List.Pairwise (fun op1 op2 => ∀ p, fileAt op1 = some p → ¬ touches op2 p) ops

/-! ### Concrete sample data for witnesses and counterexamples -/

/-- The empty filesystem. -/
def fsEmpty : FS := fun _ => none

/-- Android table of the end-to-end scenario of the spec (claim C1):
namespace, min-sdk 21, ndk-level 25, sdk-path, nothing else. -/
def c1Android : RawPlatformAndroid :=
  { application_id := none, nspace := some "com.example", compile_sdk := none,
    min_sdk := some 21, target_sdk := none, ndk_level := some 25,
    version_code := none, version_name := none, sdk_path := some "/opt/sdk" }

/-- Platform entry of the end-to-end scenario. -/
def c1Platform : RawPlatform :=
  { id := "android", path := none,
    configuration := some (RawPlatformConfiguration.Android c1Android) }

/-- Raw manifest of the end-to-end scenario: version 1, application id
`app`, package `pkg`, the single android platform. -/
def c1Raw : Raw :=
  { version := 1,
    application := some
      { id := some "app", name := none, path := none, package := some "pkg" },
    platform := [c1Platform] }

/-- Validated manifest of the end-to-end scenario. -/
def c1Manifest : Manifest := { raw := c1Raw }

/-- A fully-specified android table: every raw key that `emerge_android`
unwraps is present. -/
def fullAndroid : RawPlatformAndroid :=
  { application_id := some "com.example.app", nspace := some "com.example",
    compile_sdk := some 23, min_sdk := some 21, target_sdk := some 22,
    ndk_level := some 25, version_code := some 7, version_name := some "1.2",
    sdk_path := some "/opt/sdk" }

/-- Platform entry with an explicit path `p` and the full android table. -/
def fullPlatform : RawPlatform :=
  { id := "android", path := some "p",
    configuration := some (RawPlatformConfiguration.Android fullAndroid) }

/-- Raw manifest with every key `emerge_android` requires. -/
def fullRaw : Raw :=
  { version := 1,
    application := some
      { id := some "app", name := some "App Name", path := none,
        package := some "pkg" },
    platform := [fullPlatform] }

/-- Validated full manifest. -/
def fullManifest : Manifest := { raw := fullRaw }

/-- The full android table with `sdk-path` removed (claim C9). -/
def c9Android : RawPlatformAndroid := { fullAndroid with sdk_path := none }

/-- Platform entry for the sdk-path-less table. -/
def c9Platform : RawPlatform :=
  { id := "android", path := some "p",
    configuration := some (RawPlatformConfiguration.Android c9Android) }

/-- Validated manifest for the sdk-path-less table. -/
def c9Manifest : Manifest :=
  { raw := { version := 1,
             application := some
               { id := some "app", name := some "App Name", path := none,
                 package := some "pkg" },
             platform := [c9Platform] } }

/-- A filesystem holding only the directory `p`. -/
def fsDirP : FS := fun q => if q = ["p"] then some Entry.dir else none

/-- A filesystem holding the directory `p` and a stale
`p/local.properties` file. -/
def fsDirPWithLocal : FS := fun q =>
  if q = ["p"] then some Entry.dir
  else if q = ["p", "local.properties"] then some (Entry.file "stale") else none

/-! ### Helper lemmas: view resolution -/

/-- A successful view carries exactly the resolved SDK triple. -/
theorem view_sdkTriple (a : RawPlatformAndroid) (raw : Raw)
    (v : ViewPlatformAndroid) (h : a.view raw = Except.ok v) :
    sdkTriple a.min_sdk a.target_sdk a.compile_sdk
      = Except.ok (v.min_sdk, v.target_sdk, v.compile_sdk) := by
  unfold RawPlatformAndroid.view at h
  repeat' split at h
  all_goals cases h
  all_goals simp_all

/-- A missing namespace is the first resolution error. -/
theorem view_missing_nspace (a : RawPlatformAndroid) (raw : Raw)
    (h : a.nspace = none) :
    a.view raw = Except.error (ErrorView.MissingKey ".namespace") := by
  unfold RawPlatformAndroid.view
  rw [h]

/-- With a namespace present, an unresolvable application id is next. -/
theorem view_missing_appid (a : RawPlatformAndroid) (raw : Raw) (ns : String)
    (h1 : a.nspace = some ns) (h2 : resolvedAppId a raw = none) :
    a.view raw = Except.error (ErrorView.MissingKey ".application-id") := by
  unfold RawPlatformAndroid.view
  rw [h1, h2]

/-- With namespace and application id resolvable, the empty SDK triple is
reported as `.min-sdk`. -/
theorem view_missing_minsdk (a : RawPlatformAndroid) (raw : Raw)
    (ns appid : String)
    (h1 : a.nspace = some ns) (h2 : resolvedAppId a raw = some appid)
    (h3 : a.min_sdk = none) (h4 : a.target_sdk = none)
    (h5 : a.compile_sdk = none) :
    a.view raw = Except.error (ErrorView.MissingKey ".min-sdk") := by
  unfold RawPlatformAndroid.view
  rw [h1, h2, h3, h4, h5]
  rfl

/-- After the SDK triple resolves, a missing NDK level is next. -/
theorem view_missing_ndk (a : RawPlatformAndroid) (raw : Raw)
    (ns appid : String) (trip : Nat × Nat × Nat)
    (h1 : a.nspace = some ns) (h2 : resolvedAppId a raw = some appid)
    (h3 : sdkTriple a.min_sdk a.target_sdk a.compile_sdk = Except.ok trip)
    (h4 : a.ndk_level = none) :
    a.view raw = Except.error (ErrorView.MissingKey ".ndk-level") := by
  unfold RawPlatformAndroid.view
  rw [h1, h2, h3, h4]

/-- Last of all, a missing SDK path is reported. -/
theorem view_missing_sdkpath (a : RawPlatformAndroid) (raw : Raw)
    (ns appid : String) (trip : Nat × Nat × Nat) (ndk : Nat)
    (h1 : a.nspace = some ns) (h2 : resolvedAppId a raw = some appid)
    (h3 : sdkTriple a.min_sdk a.target_sdk a.compile_sdk = Except.ok trip)
    (h4 : a.ndk_level = some ndk) (h5 : a.sdk_path = none) :
    a.view raw = Except.error (ErrorView.MissingKey ".sdk-path") := by
  unfold RawPlatformAndroid.view
  rw [h1, h2, h3, h4, h5]

/-- When every required field resolves, the view succeeds. -/
theorem view_ok (a : RawPlatformAndroid) (raw : Raw)
    (ns appid : String) (trip : Nat × Nat × Nat) (ndk : Nat) (sp : String)
    (h1 : a.nspace = some ns) (h2 : resolvedAppId a raw = some appid)
    (h3 : sdkTriple a.min_sdk a.target_sdk a.compile_sdk = Except.ok trip)
    (h4 : a.ndk_level = some ndk) (h5 : a.sdk_path = some sp) :
    ∃ v, a.view raw = Except.ok v := by
  unfold RawPlatformAndroid.view
  rw [h1, h2, h3, h4, h5]
  exact ⟨_, rfl⟩

/-! ### Claim C2 -/

/-- C2 counterexample: with `min-sdk = 30` and `target-sdk = 21` the
resolved triple is `(30, 21, 21)`, which violates `min ≤ target`. The
claimed ordering does not hold for all present values. -/
theorem c2_sdk_order_counterexample :
    sdkTriple (some 30) (some 21) none = Except.ok (30, 21, 21)
      ∧ ¬(30 ≤ 21) := by
  constructor
  · rfl
  · decide

/-- C2 (amended): SDK-triple resolution is idempotent, the resolved triple
depends only on the three SDK inputs, and the resolved triple satisfies
`min ≤ target ≤ compile` provided every pair of present inputs is already
ordered that way (for arbitrary present values the ordering can be
violated). -/
theorem c2_sdk_resolution_amended :
    (∀ (mo tgo cmo : Option Nat) (m t c : Nat),
        sdkTriple mo tgo cmo = Except.ok (m, t, c) →
        sdkTriple (some m) (some t) (some c) = Except.ok (m, t, c))
  ∧ (∀ (a1 a2 : RawPlatformAndroid) (raw1 raw2 : Raw)
        (v1 v2 : ViewPlatformAndroid),
        a1.min_sdk = a2.min_sdk → a1.target_sdk = a2.target_sdk →
        a1.compile_sdk = a2.compile_sdk →
        a1.view raw1 = Except.ok v1 → a2.view raw2 = Except.ok v2 →
        (v1.min_sdk, v1.target_sdk, v1.compile_sdk)
          = (v2.min_sdk, v2.target_sdk, v2.compile_sdk))
  ∧ (∀ (mo tgo cmo : Option Nat) (m t c : Nat),
        sdkTriple mo tgo cmo = Except.ok (m, t, c) →
        (∀ x y, mo = some x → tgo = some y → x ≤ y) →
        (∀ x y, mo = some x → cmo = some y → x ≤ y) →
        (∀ x y, tgo = some x → cmo = some y → x ≤ y) →
        m ≤ t ∧ t ≤ c) := by
  refine ⟨?_, ?_, ?_⟩
  · intro mo tgo cmo m t c h
    rcases mo with _ | m' <;> rcases tgo with _ | t' <;> rcases cmo with _ | c' <;>
      simp [sdkTriple] at h ⊢
  · intro a1 a2 raw1 raw2 v1 v2 hm ht hc h1 h2
    have e1 := view_sdkTriple a1 raw1 v1 h1
    have e2 := view_sdkTriple a2 raw2 v2 h2
    rw [hm, ht, hc] at e1
    have e3 : (Except.ok (v1.min_sdk, v1.target_sdk, v1.compile_sdk)
          : Except ErrorView (Nat × Nat × Nat))
          = Except.ok (v2.min_sdk, v2.target_sdk, v2.compile_sdk) := by
      rw [← e1]; exact e2
    exact Except.ok.inj e3
  · intro mo tgo cmo m t c h h1 h2 h3
    rcases mo with _ | m' <;> rcases tgo with _ | t' <;> rcases cmo with _ | c' <;>
      simp [sdkTriple] at h <;>
      obtain ⟨rfl, rfl, rfl⟩ := h <;>
      refine ⟨?_, ?_⟩ <;>
      first
        | exact Nat.le_refl _
        | exact h1 _ _ rfl rfl
        | exact h2 _ _ rfl rfl
        | exact h3 _ _ rfl rfl

/-- C2 witness: the amended theorem applied at concrete inputs. -/
theorem c2_sdk_resolution_amended_witness :
    sdkTriple (some 21) (some 21) (some 21) = Except.ok (21, 21, 21)
  ∧ (21 ≤ 22 ∧ 22 ≤ 23) := by
  constructor
  · exact c2_sdk_resolution_amended.1 (some 21) none none 21 21 21 (by rfl)
  · exact c2_sdk_resolution_amended.2.2 (some 21) (some 22) (some 23) 21 22 23
      (by rfl) (fun x y hx hy => by injection hx; injection hy; omega)
      (fun x y hx hy => by injection hx; injection hy; omega)
      (fun x y hx hy => by injection hx; injection hy; omega)

/-! ### Claim C3 -/

/-- C3: `RawPlatformAndroid::view` resolves the SDK triple exactly per the
8-case presence table: the triple of every successful view is the table
entry for the three inputs; all-absent yields `MissingKey ".min-sdk"` (once
the earlier namespace and application-id checks pass); one present value is
replicated; `min`+`target` give `(m, t, t)`; `min`+`compile` give
`(m, c, c)`; `target`+`compile` give `(t, t, c)`; all three are returned as
given. -/
theorem c3_sdk_table :
    (∀ (a : RawPlatformAndroid) (raw : Raw) (v : ViewPlatformAndroid),
        a.view raw = Except.ok v →
        sdkTriple a.min_sdk a.target_sdk a.compile_sdk
          = Except.ok (v.min_sdk, v.target_sdk, v.compile_sdk))
  ∧ (∀ (a : RawPlatformAndroid) (raw : Raw) (ns appid : String),
        a.nspace = some ns → resolvedAppId a raw = some appid →
        a.min_sdk = none → a.target_sdk = none → a.compile_sdk = none →
        a.view raw = Except.error (ErrorView.MissingKey ".min-sdk"))
  ∧ sdkTriple none none none = Except.error (ErrorView.MissingKey ".min-sdk")
  ∧ (∀ x : Nat, sdkTriple (some x) none none = Except.ok (x, x, x))
  ∧ (∀ x : Nat, sdkTriple none (some x) none = Except.ok (x, x, x))
  ∧ (∀ x : Nat, sdkTriple none none (some x) = Except.ok (x, x, x))
  ∧ (∀ m t : Nat, sdkTriple (some m) (some t) none = Except.ok (m, t, t))
  ∧ (∀ m c : Nat, sdkTriple (some m) none (some c) = Except.ok (m, c, c))
  ∧ (∀ t c : Nat, sdkTriple none (some t) (some c) = Except.ok (t, t, c))
  ∧ (∀ m t c : Nat,
        sdkTriple (some m) (some t) (some c) = Except.ok (m, t, c)) := by
  refine ⟨view_sdkTriple, ?_, rfl, fun _ => rfl, fun _ => rfl, fun _ => rfl,
    fun _ _ => rfl, fun _ _ => rfl, fun _ _ => rfl, fun _ _ _ => rfl⟩
  intro a raw ns appid h1 h2 h3 h4 h5
  exact view_missing_minsdk a raw ns appid h1 h2 h3 h4 h5

/-- C3 witness: the table theorem applied at the end-to-end scenario table
(only `min-sdk = 21` present) and at an all-absent table. -/
theorem c3_sdk_table_witness :
    sdkTriple c1Android.min_sdk c1Android.target_sdk c1Android.compile_sdk
      = Except.ok (21, 21, 21)
  ∧ ({ c1Android with min_sdk := none }.view c1Raw
      = Except.error (ErrorView.MissingKey ".min-sdk")) := by
  constructor
  · have h := c3_sdk_table.2.2.2.1 21
    exact h
  · exact c3_sdk_table.2.1 { c1Android with min_sdk := none } c1Raw
      "com.example" "app" (by rfl) (by rfl) (by rfl) (by rfl) (by rfl)

/-! ### Claim C6 -/

/-- C6 counterexample: the application name `Tom & Jerry <3` passes
validation (the quoting check only rejects control characters, quotes and
backslashes), yet the generated `strings.xml` contains the `&` and `<`
verbatim -- no `&amp;`/`&lt;` escaping is applied before substitution. -/
theorem c6_escape_counterexample :
    Manifest.is_quotable "Tom & Jerry <3" = true
  ∧ Manifest.parse_raw
      { version := 1,
        application := some
          { id := some "app", name := some "Tom & Jerry <3", path := none,
            package := none },
        platform := [] }
      = Except.ok { raw :=
          { version := 1,
            application := some
              { id := some "app", name := some "Tom & Jerry <3", path := none,
                package := none },
            platform := [] } }
  ∧ stringsContent "Tom & Jerry <3"
      = "<!-- Generated by osiris-platform -->\n<resources>\n    <string name=\"app_name\">Tom & Jerry <3</string>\n</resources>\n"
  ∧ stringsContent "Tom & Jerry <3"
      ≠ "<!-- Generated by osiris-platform -->\n<resources>\n    <string name=\"app_name\">Tom &amp; Jerry &lt;3</string>\n</resources>\n" := by
  refine ⟨by decide, by rfl, by rfl, by decide⟩

/-- C6 (amended): manifest values are interpolated into XML-PCDATA
positions verbatim -- `emerge_android_strings` substitutes the application
name into the template with no escaping -- and the validator accepts names
containing `&` and `<`, so these characters reach the generated XML
unescaped. -/
theorem c6_no_escaping_amended :
    (∀ name : String, stringsContent name =
        "<!-- Generated by osiris-platform -->\n<resources>\n    <string name=\"app_name\">"
          ++ name ++ "</string>\n</resources>\n")
  ∧ Manifest.is_quotable "&" = true
  ∧ Manifest.is_quotable "<" = true := by
  exact ⟨fun _ => rfl, by decide, by decide⟩

/-! ### Claim C8 -/

/-- C8 counterexample: a bad version, a bad identifier and a bad quoting
violation all produce the identical information-free validation error
`Except.error ()` -- the three structural violations are not
distinguishable from one another in the returned error. -/
theorem c8_error_counterexample :
    Manifest.parse_raw { version := 2, application := none, platform := [] }
      = Except.error ()
  ∧ Manifest.parse_raw
      { version := 1,
        application := some
          { id := some "", name := none, path := none, package := none },
        platform := [] }
      = Except.error ()
  ∧ Manifest.parse_raw
      { version := 1,
        application := some
          { id := none, name := some "a\"b", path := none, package := none },
        platform := [] }
      = Except.error ()
  ∧ Manifest.parse_raw { version := 2, application := none, platform := [] }
      = Manifest.parse_raw
          { version := 1,
            application := some
              { id := some "", name := none, path := none, package := none },
            platform := [] } := by
  refine ⟨by rfl, by rfl, by rfl, by rfl⟩

/-- C8 (amended): validation distinguishes nothing -- every invalid
manifest yields the same unit error from `Manifest::parse_raw` (the
`Result<_, ()>` of the source), so the kind of structural violation is not
reported; only resolution errors carry information, naming exactly one
missing key, and two missing-key errors are equal precisely when they name
the same key. -/
theorem c8_error_reporting_amended :
    (∀ raw : Raw,
        Manifest.parse_raw raw = Except.ok { raw := raw }
          ∨ Manifest.parse_raw raw = Except.error ())
  ∧ (∀ k k' : String,
        (ErrorView.MissingKey k = ErrorView.MissingKey k') ↔ k = k') := by
  constructor
  · intro raw
    unfold Manifest.parse_raw
    split
    · exact Or.inr rfl
    · split
      · exact Or.inr rfl
      · split
        · exact Or.inr rfl
        · exact Or.inl rfl
  · intro k k'
    constructor
    · intro h; injection h
    · intro h; rw [h]

/-! ### Claim C10 -/

/-- C10: a platform without a configured path defaults to
`./platform/<id>` (and a configured path is used verbatim); emerge without
an override targets exactly this value, and the build operation's
platform-directory selection checks this value and uses it as the
authoritative directory when it exists. -/
theorem c10_platform_path_default :
    (∀ p : RawPlatform, p.path = none →
        p.pathOrDefault = "./platform/" ++ p.id)
  ∧ (∀ (p : RawPlatform) (s : String), p.path = some s → p.pathOrDefault = s)
  ∧ (∀ (m : Manifest) (p : RawPlatform) (u : Bool) (fs : FS),
        emerge m p none u fs
          = emergeAt m p (pathComponents p.pathOrDefault) u fs)
  ∧ (∀ (m : Manifest) (md : Metadata) (p : RawPlatform) (fs : FS),
        fs (pathComponents p.pathOrDefault) = some Entry.dir →
        buildPlatformDir m md p fs
          = (fs, Except.ok (pathComponents p.pathOrDefault))) := by
  refine ⟨?_, ?_, ?_, ?_⟩
  · intro p h
    unfold RawPlatform.pathOrDefault
    rw [h]
  · intro p s h
    unfold RawPlatform.pathOrDefault
    rw [h]
  · intro m p u fs
    rfl
  · intro m md p fs h
    unfold buildPlatformDir
    rw [h]

/-- C10 witness: the default at the end-to-end platform (no configured
path), the configured path of the full platform, and build-side selection
of an existing platform directory. -/
theorem c10_platform_path_default_witness :
    c1Platform.pathOrDefault = "./platform/" ++ c1Platform.id
  ∧ fullPlatform.pathOrDefault = "p"
  ∧ buildPlatformDir fullManifest { target_directory := "t" } fullPlatform
      fsDirP = (fsDirP, Except.ok (pathComponents fullPlatform.pathOrDefault)) := by
  refine ⟨c10_platform_path_default.1 c1Platform (by rfl),
    c10_platform_path_default.2.1 fullPlatform "p" (by rfl),
    c10_platform_path_default.2.2.2 fullManifest { target_directory := "t" }
      fullPlatform fsDirP (by decide)⟩

/-! ### Claim C4 -/

/-- C4: when the target path already exists as a directory and emerge is
invoked without allowing updates, the result is the `Already` error and
the returned filesystem is the input filesystem -- nothing is written,
created or removed. -/
theorem c4_emerge_already :
    ∀ (m : Manifest) (p : RawPlatform) (ov : Option (List String)) (fs : FS)
      (tgt : List String),
      tgt = (match ov with
             | some q => q
             | none => pathComponents p.pathOrDefault) →
      fs tgt = some Entry.dir →
      emerge m p ov false fs = (fs, some EmergeError.Already) := by
  intro m p ov fs tgt htgt hdir
  unfold emerge emergeAt
  rw [← htgt, hdir]
  rfl

/-- C4 witness: emerging the full manifest into the existing directory `p`
with updates disallowed. -/
theorem c4_emerge_already_witness :
    emerge fullManifest fullPlatform none false fsDirP
      = (fsDirP, some EmergeError.Already) :=
  c4_emerge_already fullManifest fullPlatform none fsDirP ["p"]
    (by decide) (by decide)

/-! ### Helper lemmas: paths -/

/-- Left-cancellation of list append. -/
theorem appendLeftCancel {α : Type} {l x y : List α} (h : l ++ x = l ++ y) :
    x = y := by
  induction l with
  | nil => simpa using h
  | cons a t ih =>
    injection h with _ h2
    exact ih h2

/-- Appending distinct suffixes to the same base gives distinct paths. -/
theorem ne_append_of_ne {t x y : List String} (h : x ≠ y) : t ++ x ≠ t ++ y :=
  fun he => h (appendLeftCancel he)

/-- The empty path is an ancestor of every path. -/
theorem pathLe_nil (q : List String) : PathLe [] q := ⟨q, rfl⟩

/-- An ancestor is no longer than its descendant. -/
theorem pathLe_length {p q : List String} (h : PathLe p q) :
    p.length ≤ q.length := by
  obtain ⟨r, rfl⟩ := h
  simp

/-- Ancestry is invariant under a common base. -/
theorem pathLe_append_cancel {l x y : List String} :
    PathLe (l ++ x) (l ++ y) ↔ PathLe x y := by
  constructor
  · rintro ⟨r, hr⟩
    rw [List.append_assoc] at hr
    exact ⟨r, appendLeftCancel hr⟩
  · rintro ⟨r, rfl⟩
    exact ⟨r, by rw [List.append_assoc]⟩

/-- Ancestry of nonempty paths decomposes head-first. -/
theorem pathLe_cons_cons {a b : String} {x y : List String} :
    PathLe (a :: x) (b :: y) ↔ a = b ∧ PathLe x y := by
  constructor
  · rintro ⟨r, hr⟩
    injection hr with h1 h2
    exact ⟨h1.symm, r, h2⟩
  · rintro ⟨rfl, r, rfl⟩
    exact ⟨r, rfl⟩

/-- A nonempty path is no ancestor of the empty path. -/
theorem pathLe_cons_nil {a : String} {x : List String} :
    ¬ PathLe (a :: x) [] := by
  rintro ⟨r, hr⟩
  cases hr

/-- Ancestors of a path extended by one component: ancestors of the path,
or the extended path itself. -/
theorem pathLe_snoc {q l : List String} {a : String} :
    PathLe q (l ++ [a]) ↔ PathLe q l ∨ q = l ++ [a] := by
  constructor
  · rintro ⟨r, hr⟩
    rcases List.eq_nil_or_concat r with rfl | ⟨r', a', rfl⟩
    · right
      rw [hr, List.append_nil]
    · left
      rw [List.concat_eq_append, ← List.append_assoc] at hr
      obtain ⟨h1, _⟩ := List.append_inj' hr rfl
      exact ⟨r', h1⟩
  · rintro (⟨r, rfl⟩ | rfl)
    · exact ⟨r ++ [a], by rw [List.append_assoc]⟩
    · exact ⟨[], by rw [List.append_nil]⟩

/-! ### Helper lemmas: primitive filesystem operations -/

/-- A point update hits its own path. -/
theorem setFS_self (fs : FS) (p : List String) (e : Option Entry) :
    setFS fs p e p = e := by
  simp [setFS]

/-- A point update misses other paths. -/
theorem setFS_ne (fs : FS) (p : List String) (e : Option Entry)
    {q : List String} (h : q ≠ p) : setFS fs p e q = fs q := by
  simp [setFS, h]

/-- Directory creation only turns absent entries into directories. -/
theorem mkdirChain_changes {rest : List String} :
    ∀ {fs fs' : FS} {base : List String},
      mkdirChain fs base rest = some fs' →
      ∀ q, fs' q = fs q ∨ (fs q = none ∧ fs' q = some Entry.dir) := by
  induction rest with
  | nil =>
    intro fs fs' base h q
    unfold mkdirChain at h
    cases h
    exact Or.inl rfl
  | cons c cs ih =>
    intro fs fs' base h q
    unfold mkdirChain at h
    split at h
    · cases h
    · exact ih h q
    · rename_i hnode
      by_cases hq : q = base ++ [c]
      · rcases ih h q with h1 | ⟨h1, h2⟩
        · rw [hq] at h1 ⊢
          rw [setFS_self] at h1
          exact Or.inr ⟨hnode, h1⟩
        · rw [hq] at h1
          rw [setFS_self] at h1
          cases h1
      · rcases ih h q with h1 | ⟨h1, h2⟩
        · rw [setFS_ne _ _ _ hq] at h1
          exact Or.inl h1
        · rw [setFS_ne _ _ _ hq] at h1
          exact Or.inr ⟨h1, h2⟩

/-- Directory creation preserves every existing entry. -/
theorem mkdirChain_keeps {rest : List String} {fs fs' : FS}
    {base : List String} (h : mkdirChain fs base rest = some fs')
    {q : List String} {e : Entry} (he : fs q = some e) : fs' q = some e := by
  rcases mkdirChain_changes h q with h1 | ⟨h1, _⟩
  · rw [h1, he]
  · rw [he] at h1
    cases h1

/-- Directory creation leaves paths outside the created chain unchanged. -/
theorem mkdirChain_outside {rest : List String} :
    ∀ {fs fs' : FS} {base : List String},
      mkdirChain fs base rest = some fs' →
      ∀ q, (∀ pre suf, pre ≠ [] → rest = pre ++ suf → q ≠ base ++ pre) →
      fs' q = fs q := by
  induction rest with
  | nil =>
    intro fs fs' base h q _
    unfold mkdirChain at h
    cases h
    rfl
  | cons c cs ih =>
    intro fs fs' base h q hout
    unfold mkdirChain at h
    split at h
    · cases h
    · refine ih h q ?_
      intro pre suf hpre hsuf
      rw [← List.append_cons]
      exact hout (c :: pre) suf (by simp) (by simp [hsuf])
    · have hq : q ≠ base ++ [c] := hout [c] cs (by simp) rfl
      have hrec := ih h q ?_
      · rw [hrec, setFS_ne _ _ _ hq]
      · intro pre suf hpre hsuf
        rw [← List.append_cons]
        exact hout (c :: pre) suf (by simp) (by simp [hsuf])

/-- After directory creation, every nonempty chain node is a directory. -/
theorem mkdirChain_all_dirs {rest : List String} :
    ∀ {fs fs' : FS} {base : List String},
      mkdirChain fs base rest = some fs' →
      ∀ pre suf, pre ≠ [] → rest = pre ++ suf →
      fs' (base ++ pre) = some Entry.dir := by
  induction rest with
  | nil =>
    intro fs fs' base h pre suf hpre hsplit
    rcases pre with _ | ⟨p0, pre'⟩
    · exact absurd rfl hpre
    · cases hsplit
  | cons c cs ih =>
    intro fs fs' base h pre suf hpre hsplit
    rcases pre with _ | ⟨p0, pre'⟩
    · exact absurd rfl hpre
    · injection hsplit with hc hcs
      subst hc
      unfold mkdirChain at h
      split at h
      · cases h
      · rename_i hnode
        by_cases hpre' : pre' = []
        · subst hpre'
          exact mkdirChain_keeps h hnode
        · rw [List.append_cons]
          exact ih h pre' suf hpre' hcs
      · rename_i hnode
        by_cases hpre' : pre' = []
        · subst hpre'
          exact mkdirChain_keeps h (setFS_self _ _ _)
        · rw [List.append_cons]
          exact ih h pre' suf hpre' hcs

/-- Directory creation over an already-created chain changes nothing. -/
theorem mkdirChain_fixpoint {rest : List String} :
    ∀ {fs : FS} {base : List String},
      (∀ pre suf, pre ≠ [] → rest = pre ++ suf →
        fs (base ++ pre) = some Entry.dir) →
      mkdirChain fs base rest = some fs := by
  induction rest with
  | nil =>
    intro fs base _
    rfl
  | cons c cs ih =>
    intro fs base hall
    have hnode : fs (base ++ [c]) = some Entry.dir := hall [c] cs (by simp) rfl
    unfold mkdirChain
    rw [hnode]
    refine ih ?_
    intro pre suf hpre hsuf
    rw [← List.append_cons]
    exact hall (c :: pre) suf (by simp) (by simp [hsuf])

/-- A successful content-diffed update leaves the target holding exactly
the written content. -/
theorem updateFile_at {fs fs' : FS} {p : List String} {c : String}
    (h : updateFile fs p c = (fs', none)) : fs' p = some (Entry.file c) := by
  unfold updateFile at h
  split at h
  · simp at h
  · rename_i old heq
    split at h
    · rename_i holdc
      injection h with h1 h2
      rw [← h1, heq, holdc]
    · injection h with h1 h2
      rw [← h1, setFS_self]
  · split at h
    · injection h with h1 h2
      rw [← h1, setFS_self]
    · simp at h

/-- A content-diffed update changes no other path. -/
theorem updateFile_ne {fs fs' : FS} {p : List String} {c : String}
    (h : updateFile fs p c = (fs', none)) {q : List String} (hq : q ≠ p) :
    fs' q = fs q := by
  unfold updateFile at h
  split at h
  · simp at h
  · split at h
    · injection h with h1 h2
      rw [← h1]
    · injection h with h1 h2
      rw [← h1, setFS_ne _ _ _ hq]
  · split at h
    · injection h with h1 h2
      rw [← h1, setFS_ne _ _ _ hq]
    · simp at h

/-- Updating a file that already holds the content is a no-op: the
content-diff finds the old and new contents equal and skips the write. -/
theorem updateFile_fix {fs : FS} {p : List String} {c : String}
    (h : fs p = some (Entry.file c)) : updateFile fs p c = (fs, none) := by
  unfold updateFile
  rw [h]
  simp

/-- A successful unlink leaves the target absent. -/
theorem unlinkFile_at {fs fs' : FS} {p : List String}
    (h : unlinkFile fs p = (fs', none)) : fs' p = none := by
  unfold unlinkFile at h
  split at h
  · rename_i heq
    injection h with h1 h2
    rw [← h1, heq]
  · injection h with h1 h2
    rw [← h1, setFS_self]
  · simp at h

/-- An unlink changes no other path. -/
theorem unlinkFile_ne {fs fs' : FS} {p : List String}
    (h : unlinkFile fs p = (fs', none)) {q : List String} (hq : q ≠ p) :
    fs' q = fs q := by
  unfold unlinkFile at h
  split at h
  · injection h with h1 h2
    rw [← h1]
  · injection h with h1 h2
    rw [← h1, setFS_ne _ _ _ hq]
  · simp at h

/-- Unlinking an absent file succeeds and changes nothing. -/
theorem unlinkFile_fix {fs : FS} {p : List String} (h : fs p = none) :
    unlinkFile fs p = (fs, none) := by
  unfold unlinkFile
  rw [h]

/-- A successful effect leaves untouched paths unchanged. -/
theorem runOp_untouched {fs fs' : FS} {op : FileOp}
    (h : runOp fs op = (fs', none)) :
    ∀ q, ¬ touches op q → fs' q = fs q := by
  intro q hq
  cases op with
  | write p c => exact updateFile_ne h (fun he => hq he)
  | unlink p => exact unlinkFile_ne h (fun he => hq he)
  | mkdirAll p =>
    simp only [runOp] at h
    split at h
    · rename_i g heq
      injection h with h1 h2
      rw [← h1]
      refine mkdirChain_outside heq q ?_
      intro pre suf hpre hsplit hqpre
      exact hq ⟨by rw [hqpre]; simpa using hpre,
        ⟨suf, by rw [hqpre]; simpa using hsplit⟩⟩
    · simp at h

/-- A successful effect never destroys a directory. -/
theorem runOp_dir_stable {fs fs' : FS} {op : FileOp}
    (h : runOp fs op = (fs', none)) {q : List String}
    (hd : fs q = some Entry.dir) : fs' q = some Entry.dir := by
  cases op with
  | write p c =>
    by_cases hq : q = p
    · subst hq
      simp only [runOp] at h
      unfold updateFile at h
      rw [hd] at h
      simp at h
    · rw [updateFile_ne h hq, hd]
  | unlink p =>
    by_cases hq : q = p
    · subst hq
      simp only [runOp] at h
      unfold unlinkFile at h
      rw [hd] at h
      simp at h
    · rw [unlinkFile_ne h hq, hd]
  | mkdirAll p =>
    simp only [runOp] at h
    split at h
    · rename_i g heq
      injection h with h1 h2
      rw [← h1]
      exact mkdirChain_keeps heq hd
    · simp at h

/-- Effect errors are filesystem errors, never a missing manifest key. -/
theorem runOp_no_manifestKey {fs fs' : FS} {op : FileOp} {e : EmergeError}
    (h : runOp fs op = (fs', some e)) : ∀ k, e ≠ EmergeError.ManifestKey k := by
  intro k
  cases op with
  | write p c =>
    simp only [runOp] at h
    unfold updateFile at h
    split at h
    · injection h with h1 h2
      injection h2 with h2
      rw [← h2]
      simp
    · split at h <;> simp at h
    · split at h
      · simp at h
      · injection h with h1 h2
        injection h2 with h2
        rw [← h2]
        simp
  | unlink p =>
    simp only [runOp] at h
    unfold unlinkFile at h
    split at h
    · simp at h
    · simp at h
    · injection h with h1 h2
      injection h2 with h2
      rw [← h2]
      simp
  | mkdirAll p =>
    simp only [runOp] at h
    split at h
    · simp at h
    · injection h with h1 h2
      injection h2 with h2
      rw [← h2]
      simp

/-- A successful sequence decomposes into a successful head and tail. -/
theorem runOps_split {fs fs₁ : FS} {op : FileOp} {ops : List FileOp}
    (h : runOps fs (op :: ops) = (fs₁, none)) :
    ∃ g, runOp fs op = (g, none) ∧ runOps g ops = (fs₁, none) := by
  unfold runOps at h
  split at h
  · rename_i g heq
    exact ⟨g, heq, h⟩
  · rename_i g e heq
    simp at h

/-- A successful sequence leaves untouched paths unchanged. -/
theorem runOps_untouched {ops : List FileOp} :
    ∀ {fs fs₁ : FS}, runOps fs ops = (fs₁, none) →
    ∀ q, (∀ op ∈ ops, ¬ touches op q) → fs₁ q = fs q := by
  induction ops with
  | nil =>
    intro fs fs₁ h q _
    unfold runOps at h
    injection h with h1 h2
    rw [← h1]
  | cons op rest ih =>
    intro fs fs₁ h q hq
    obtain ⟨g, h1, h2⟩ := runOps_split h
    rw [ih h2 q (fun o ho => hq o (List.mem_cons_of_mem _ ho))]
    exact runOp_untouched h1 q (hq op (List.mem_cons_self _ _))

/-- A successful sequence never destroys a directory. -/
theorem runOps_dir_stable {ops : List FileOp} :
    ∀ {fs fs₁ : FS}, runOps fs ops = (fs₁, none) →
    ∀ {q : List String}, fs q = some Entry.dir → fs₁ q = some Entry.dir := by
  induction ops with
  | nil =>
    intro fs fs₁ h q hd
    unfold runOps at h
    injection h with h1 h2
    rw [← h1]
    exact hd
  | cons op rest ih =>
    intro fs fs₁ h q hd
    obtain ⟨g, h1, h2⟩ := runOps_split h
    exact ih h2 (runOp_dir_stable h1 hd)

/-- Sequence errors are filesystem errors, never a missing manifest key. -/
theorem runOps_no_manifestKey {ops : List FileOp} :
    ∀ {fs fs₁ : FS} {e : EmergeError}, runOps fs ops = (fs₁, some e) →
    ∀ k, e ≠ EmergeError.ManifestKey k := by
  induction ops with
  | nil =>
    intro fs fs₁ e h k
    unfold runOps at h
    simp at h
  | cons op rest ih =>
    intro fs fs₁ e h k
    unfold runOps at h
    split at h
    · exact ih h k
    · rename_i g e' heq
      injection h with h1 h2
      injection h2 with h2
      rw [← h2]
      exact runOp_no_manifestKey heq k

/-- A sequence all of whose effects fix a filesystem fixes the sequence. -/
theorem runOps_fixpoint {ops : List FileOp} :
    ∀ {fs₁ : FS}, (∀ op ∈ ops, runOp fs₁ op = (fs₁, none)) →
    runOps fs₁ ops = (fs₁, none) := by
  induction ops with
  | nil =>
    intro fs₁ _
    rfl
  | cons op rest ih =>
    intro fs₁ hall
    unfold runOps
    rw [hall op (List.mem_cons_self _ _)]
    exact ih (fun o ho => hall o (List.mem_cons_of_mem _ ho))

/-- Re-running a separated, successful effect sequence on its result
changes nothing: written files already hold their content (the
content-diff skips them), removed files are still absent, and created
directories still exist. -/
theorem runOps_rerun {ops : List FileOp} (hsep : SepOps ops) :
    ∀ {fs fs₁ : FS}, runOps fs ops = (fs₁, none) →
    runOps fs₁ ops = (fs₁, none) := by
  induction ops with
  | nil =>
    intro fs fs₁ h
    rfl
  | cons op rest ih =>
    intro fs fs₁ h
    obtain ⟨g, h1, h2⟩ := runOps_split h
    obtain ⟨hhead, htail⟩ := List.pairwise_cons.mp hsep
    have hfix : runOp fs₁ op = (fs₁, none) := by
      cases op with
      | write p c =>
        have hat : g p = some (Entry.file c) := updateFile_at h1
        have hkeep : fs₁ p = g p :=
          runOps_untouched h2 p (fun op2 hmem => hhead op2 hmem p rfl)
        exact updateFile_fix (by rw [hkeep, hat])
      | unlink p =>
        have hat : g p = none := unlinkFile_at h1
        have hkeep : fs₁ p = g p :=
          runOps_untouched h2 p (fun op2 hmem => hhead op2 hmem p rfl)
        exact unlinkFile_fix (by rw [hkeep, hat])
      | mkdirAll p =>
        simp only [runOp] at h1 ⊢
        split at h1
        · rename_i g' heq
          injection h1 with h1a h1b
          subst h1a
          have hfixc : createDirAll fs₁ p = some fs₁ := by
            refine mkdirChain_fixpoint ?_
            intro pre suf hpre hsplit
            refine runOps_dir_stable h2 ?_
            have := mkdirChain_all_dirs heq pre suf hpre hsplit
            simpa using this
          rw [hfixc]
        · simp at h1
    have htail2 : runOps fs₁ rest = (fs₁, none) := ih htail h2
    unfold runOps
    rw [hfix]
    exact htail2

/-- The manifest keys `emerge_android` unwraps, when all present, reduce
it to its effect sequence. -/
theorem emergeAndroid_eq {m : Manifest} {a : RawPlatformAndroid}
    {path : List String} {fs : FS} {name appid aid ns : String}
    {csdk msdk tsdk vc : Nat} {vn : String}
    (h1 : m.raw.application.bind (fun x => x.name) = some name)
    (h2 : m.raw.application.bind (fun x => x.id) = some appid)
    (h3 : a.application_id = some aid)
    (h4 : a.nspace = some ns)
    (h5 : a.compile_sdk = some csdk)
    (h6 : a.min_sdk = some msdk)
    (h7 : a.target_sdk = some tsdk)
    (h8 : a.version_code = some vc)
    (h9 : a.version_name = some vn) :
    emergeAndroid m a path fs
      = runOps fs (androidOps path name appid aid ns csdk msdk tsdk vc vn
          a.sdk_path) := by
  unfold emergeAndroid
  rw [h1, h2, h3, h4, h5, h6, h7, h8, h9]

/-- A successful `emerge_android` found every unwrapped key present. -/
theorem emergeAndroid_success_fields {m : Manifest} {a : RawPlatformAndroid}
    {path : List String} {fs fs₁ : FS}
    (h : emergeAndroid m a path fs = (fs₁, none)) :
    ∃ name appid aid ns csdk msdk tsdk vc vn,
      m.raw.application.bind (fun x => x.name) = some name
      ∧ m.raw.application.bind (fun x => x.id) = some appid
      ∧ a.application_id = some aid
      ∧ a.nspace = some ns
      ∧ a.compile_sdk = some csdk
      ∧ a.min_sdk = some msdk
      ∧ a.target_sdk = some tsdk
      ∧ a.version_code = some vc
      ∧ a.version_name = some vn := by
  unfold emergeAndroid at h
  cases e1 : m.raw.application.bind (fun x => x.name) with
  | none => rw [e1] at h; simp at h
  | some name =>
  rw [e1] at h
  cases e2 : m.raw.application.bind (fun x => x.id) with
  | none => rw [e2] at h; simp at h
  | some appid =>
  rw [e2] at h
  cases e3 : a.application_id with
  | none => rw [e3] at h; simp at h
  | some aid =>
  rw [e3] at h
  cases e4 : a.nspace with
  | none => rw [e4] at h; simp at h
  | some ns =>
  rw [e4] at h
  cases e5 : a.compile_sdk with
  | none => rw [e5] at h; simp at h
  | some csdk =>
  rw [e5] at h
  cases e6 : a.min_sdk with
  | none => rw [e6] at h; simp at h
  | some msdk =>
  rw [e6] at h
  cases e7 : a.target_sdk with
  | none => rw [e7] at h; simp at h
  | some tsdk =>
  rw [e7] at h
  cases e8 : a.version_code with
  | none => rw [e8] at h; simp at h
  | some vc =>
  rw [e8] at h
  cases e9 : a.version_name with
  | none => rw [e9] at h; simp at h
  | some vn =>
  exact ⟨name, appid, aid, ns, csdk, msdk, tsdk, vc, vn,
    rfl, rfl, rfl, rfl, rfl, rfl, rfl, rfl, rfl⟩

/-- A distinct suffix under a common base is not the written file. -/
theorem nt_write {path s1 s2 : List String} {c : String} (h : s1 ≠ s2) :
    ¬ touches (FileOp.write (path ++ s2) c) (path ++ s1) :=
  fun ht => ne_append_of_ne h ht

/-- A distinct suffix under a common base is not the removed file. -/
theorem nt_unlink {path s1 s2 : List String} (h : s1 ≠ s2) :
    ¬ touches (FileOp.unlink (path ++ s2)) (path ++ s1) :=
  fun ht => ne_append_of_ne h ht

/-- A suffix that is no ancestor of a created directory is untouched by
its creation. -/
theorem nt_mkdir {path s1 s2 : List String} (h : ¬ PathLe s1 s2) :
    ¬ touches (FileOp.mkdirAll (path ++ s2)) (path ++ s1) :=
  fun ht => h (pathLe_append_cancel.mp ht.2)

/-- The android effect sequence is separated: no written or removed file
path is touched again by a later effect. -/
theorem androidOps_sep (path : List String) (name appid aid ns : String)
    (csdk msdk tsdk vc : Nat) (vn : String) (sp : Option String) :
    SepOps (androidOps path name appid aid ns csdk msdk tsdk vc vn sp) := by
  cases sp with
  | none =>
    unfold SepOps androidOps
    refine List.Pairwise.cons ?_ (List.Pairwise.cons ?_ (List.Pairwise.cons ?_ (List.Pairwise.cons ?_ (List.Pairwise.cons ?_ (List.Pairwise.cons ?_ (List.Pairwise.cons ?_ (List.Pairwise.cons ?_ (List.Pairwise.cons ?_ (List.Pairwise.cons ?_ (List.Pairwise.cons ?_ (List.Pairwise.cons ?_ (List.Pairwise.cons ?_ (List.Pairwise.cons ?_ (List.Pairwise.cons ?_ (List.Pairwise.nil)))))))))))))))
    · intro op2 hmem p hp
      injection hp with hp
      subst hp
      simp only [List.mem_cons, List.not_mem_nil, or_false] at hmem
      rcases hmem with rfl | rfl | rfl | rfl | rfl | rfl | rfl | rfl | rfl | rfl | rfl | rfl | rfl | rfl <;>
        first
          | exact nt_write (by simp)
          | exact nt_unlink (by simp)
          | exact nt_mkdir (by simp [pathLe_cons_cons])
          | (simp only [List.append_assoc]
             first
               | exact nt_write (by simp)
               | exact nt_mkdir (by simp [pathLe_cons_cons]))
    · intro op2 hmem p hp
      injection hp with hp
      subst hp
      simp only [List.mem_cons, List.not_mem_nil, or_false] at hmem
      rcases hmem with rfl | rfl | rfl | rfl | rfl | rfl | rfl | rfl | rfl | rfl | rfl | rfl | rfl <;>
        first
          | exact nt_write (by simp)
          | exact nt_unlink (by simp)
          | exact nt_mkdir (by simp [pathLe_cons_cons])
          | (simp only [List.append_assoc]
             first
               | exact nt_write (by simp)
               | exact nt_mkdir (by simp [pathLe_cons_cons]))
    · intro op2 hmem p hp
      injection hp with hp
      subst hp
      simp only [List.mem_cons, List.not_mem_nil, or_false] at hmem
      rcases hmem with rfl | rfl | rfl | rfl | rfl | rfl | rfl | rfl | rfl | rfl | rfl | rfl <;>
        first
          | exact nt_write (by simp)
          | exact nt_unlink (by simp)
          | exact nt_mkdir (by simp [pathLe_cons_cons])
          | (simp only [List.append_assoc]
             first
               | exact nt_write (by simp)
               | exact nt_mkdir (by simp [pathLe_cons_cons]))
    · intro op2 hmem p hp
      injection hp with hp
      subst hp
      simp only [List.mem_cons, List.not_mem_nil, or_false] at hmem
      rcases hmem with rfl | rfl | rfl | rfl | rfl | rfl | rfl | rfl | rfl | rfl | rfl <;>
        first
          | exact nt_write (by simp)
          | exact nt_unlink (by simp)
          | exact nt_mkdir (by simp [pathLe_cons_cons])
          | (simp only [List.append_assoc]
             first
               | exact nt_write (by simp)
               | exact nt_mkdir (by simp [pathLe_cons_cons]))
    · intro op2 hmem p hp
      simp [fileAt] at hp
    · intro op2 hmem p hp
      simp [fileAt] at hp
    · intro op2 hmem p hp
      injection hp with hp
      subst hp
      simp only [List.mem_cons, List.not_mem_nil, or_false] at hmem
      rcases hmem with rfl | rfl | rfl | rfl | rfl | rfl | rfl | rfl <;>
        first
          | exact nt_write (by simp)
          | exact nt_unlink (by simp)
          | exact nt_mkdir (by simp [pathLe_cons_cons])
          | (simp only [List.append_assoc]
             first
               | exact nt_write (by simp)
               | exact nt_mkdir (by simp [pathLe_cons_cons]))
    · intro op2 hmem p hp
      simp [fileAt] at hp
    · intro op2 hmem p hp
      simp [fileAt] at hp
    · intro op2 hmem p hp
      injection hp with hp
      subst hp
      simp only [List.mem_cons, List.not_mem_nil, or_false] at hmem
      rcases hmem with rfl | rfl | rfl | rfl | rfl <;>
        first
          | exact nt_write (by simp)
          | exact nt_unlink (by simp)
          | exact nt_mkdir (by simp [pathLe_cons_cons])
          | (simp only [List.append_assoc]
             first
               | exact nt_write (by simp)
               | exact nt_mkdir (by simp [pathLe_cons_cons]))
    · intro op2 hmem p hp
      simp [fileAt] at hp
    · intro op2 hmem p hp
      injection hp with hp
      subst hp
      simp only [List.mem_cons, List.not_mem_nil, or_false] at hmem
      rcases hmem with rfl | rfl | rfl <;>
        first
          | exact nt_write (by simp)
          | exact nt_unlink (by simp)
          | exact nt_mkdir (by simp [pathLe_cons_cons])
          | (simp only [List.append_assoc]
             first
               | exact nt_write (by simp)
               | exact nt_mkdir (by simp [pathLe_cons_cons]))
    · intro op2 hmem p hp
      injection hp with hp
      subst hp
      simp only [List.mem_cons, List.not_mem_nil, or_false] at hmem
      rcases hmem with rfl | rfl <;>
        first
          | exact nt_write (by simp)
          | exact nt_unlink (by simp)
          | exact nt_mkdir (by simp [pathLe_cons_cons])
          | (simp only [List.append_assoc]
             first
               | exact nt_write (by simp)
               | exact nt_mkdir (by simp [pathLe_cons_cons]))
    · intro op2 hmem p hp
      simp [fileAt] at hp
    · intro op2 hmem p hp
      simp at hmem
  | some v =>
    unfold SepOps androidOps
    refine List.Pairwise.cons ?_ (List.Pairwise.cons ?_ (List.Pairwise.cons ?_ (List.Pairwise.cons ?_ (List.Pairwise.cons ?_ (List.Pairwise.cons ?_ (List.Pairwise.cons ?_ (List.Pairwise.cons ?_ (List.Pairwise.cons ?_ (List.Pairwise.cons ?_ (List.Pairwise.cons ?_ (List.Pairwise.cons ?_ (List.Pairwise.cons ?_ (List.Pairwise.cons ?_ (List.Pairwise.cons ?_ (List.Pairwise.nil)))))))))))))))
    · intro op2 hmem p hp
      injection hp with hp
      subst hp
      simp only [List.mem_cons, List.not_mem_nil, or_false] at hmem
      rcases hmem with rfl | rfl | rfl | rfl | rfl | rfl | rfl | rfl | rfl | rfl | rfl | rfl | rfl | rfl <;>
        first
          | exact nt_write (by simp)
          | exact nt_unlink (by simp)
          | exact nt_mkdir (by simp [pathLe_cons_cons])
          | (simp only [List.append_assoc]
             first
               | exact nt_write (by simp)
               | exact nt_mkdir (by simp [pathLe_cons_cons]))
    · intro op2 hmem p hp
      injection hp with hp
      subst hp
      simp only [List.mem_cons, List.not_mem_nil, or_false] at hmem
      rcases hmem with rfl | rfl | rfl | rfl | rfl | rfl | rfl | rfl | rfl | rfl | rfl | rfl | rfl <;>
        first
          | exact nt_write (by simp)
          | exact nt_unlink (by simp)
          | exact nt_mkdir (by simp [pathLe_cons_cons])
          | (simp only [List.append_assoc]
             first
               | exact nt_write (by simp)
               | exact nt_mkdir (by simp [pathLe_cons_cons]))
    · intro op2 hmem p hp
      injection hp with hp
      subst hp
      simp only [List.mem_cons, List.not_mem_nil, or_false] at hmem
      rcases hmem with rfl | rfl | rfl | rfl | rfl | rfl | rfl | rfl | rfl | rfl | rfl | rfl <;>
        first
          | exact nt_write (by simp)
          | exact nt_unlink (by simp)
          | exact nt_mkdir (by simp [pathLe_cons_cons])
          | (simp only [List.append_assoc]
             first
               | exact nt_write (by simp)
               | exact nt_mkdir (by simp [pathLe_cons_cons]))
    · intro op2 hmem p hp
      injection hp with hp
      subst hp
      simp only [List.mem_cons, List.not_mem_nil, or_false] at hmem
      rcases hmem with rfl | rfl | rfl | rfl | rfl | rfl | rfl | rfl | rfl | rfl | rfl <;>
        first
          | exact nt_write (by simp)
          | exact nt_unlink (by simp)
          | exact nt_mkdir (by simp [pathLe_cons_cons])
          | (simp only [List.append_assoc]
             first
               | exact nt_write (by simp)
               | exact nt_mkdir (by simp [pathLe_cons_cons]))
    · intro op2 hmem p hp
      simp [fileAt] at hp
    · intro op2 hmem p hp
      simp [fileAt] at hp
    · intro op2 hmem p hp
      injection hp with hp
      subst hp
      simp only [List.mem_cons, List.not_mem_nil, or_false] at hmem
      rcases hmem with rfl | rfl | rfl | rfl | rfl | rfl | rfl | rfl <;>
        first
          | exact nt_write (by simp)
          | exact nt_unlink (by simp)
          | exact nt_mkdir (by simp [pathLe_cons_cons])
          | (simp only [List.append_assoc]
             first
               | exact nt_write (by simp)
               | exact nt_mkdir (by simp [pathLe_cons_cons]))
    · intro op2 hmem p hp
      simp [fileAt] at hp
    · intro op2 hmem p hp
      simp [fileAt] at hp
    · intro op2 hmem p hp
      injection hp with hp
      subst hp
      simp only [List.mem_cons, List.not_mem_nil, or_false] at hmem
      rcases hmem with rfl | rfl | rfl | rfl | rfl <;>
        first
          | exact nt_write (by simp)
          | exact nt_unlink (by simp)
          | exact nt_mkdir (by simp [pathLe_cons_cons])
          | (simp only [List.append_assoc]
             first
               | exact nt_write (by simp)
               | exact nt_mkdir (by simp [pathLe_cons_cons]))
    · intro op2 hmem p hp
      simp [fileAt] at hp
    · intro op2 hmem p hp
      injection hp with hp
      subst hp
      simp only [List.mem_cons, List.not_mem_nil, or_false] at hmem
      rcases hmem with rfl | rfl | rfl <;>
        first
          | exact nt_write (by simp)
          | exact nt_unlink (by simp)
          | exact nt_mkdir (by simp [pathLe_cons_cons])
          | (simp only [List.append_assoc]
             first
               | exact nt_write (by simp)
               | exact nt_mkdir (by simp [pathLe_cons_cons]))
    · intro op2 hmem p hp
      injection hp with hp
      subst hp
      simp only [List.mem_cons, List.not_mem_nil, or_false] at hmem
      rcases hmem with rfl | rfl <;>
        first
          | exact nt_write (by simp)
          | exact nt_unlink (by simp)
          | exact nt_mkdir (by simp [pathLe_cons_cons])
          | (simp only [List.append_assoc]
             first
               | exact nt_write (by simp)
               | exact nt_mkdir (by simp [pathLe_cons_cons]))
    · intro op2 hmem p hp
      simp [fileAt] at hp
    · intro op2 hmem p hp
      simp at hmem

/-- No android effect touches the empty (root) path. -/
theorem androidOps_nil_untouched (path : List String)
    (name appid aid ns : String) (csdk msdk tsdk vc : Nat) (vn : String)
    (sp : Option String) :
    ∀ op ∈ androidOps path name appid aid ns csdk msdk tsdk vc vn sp,
      ¬ touches op ([] : List String) := by
  intro op hmem
  cases sp with
  | none =>
    unfold androidOps at hmem
    simp only [List.mem_cons, List.not_mem_nil, or_false] at hmem
    rcases hmem with rfl | rfl | rfl | rfl | rfl | rfl | rfl | rfl | rfl | rfl
      | rfl | rfl | rfl | rfl | rfl <;>
      simp [touches, List.nil_eq_append_iff]
  | some v =>
    unfold androidOps at hmem
    simp only [List.mem_cons, List.not_mem_nil, or_false] at hmem
    rcases hmem with rfl | rfl | rfl | rfl | rfl | rfl | rfl | rfl | rfl | rfl
      | rfl | rfl | rfl | rfl | rfl <;>
      simp [touches, List.nil_eq_append_iff]

/-- Re-running the emerge android handler on its own successful result
changes nothing. -/
theorem emergeAndroid_rerun {m : Manifest} {a : RawPlatformAndroid}
    {path : List String} {fs fs₁ : FS}
    (h : emergeAndroid m a path fs = (fs₁, none)) :
    emergeAndroid m a path fs₁ = (fs₁, none) := by
  obtain ⟨name, appid, aid, ns, csdk, msdk, tsdk, vc, vn,
    e1, e2, e3, e4, e5, e6, e7, e8, e9⟩ := emergeAndroid_success_fields h
  rw [emergeAndroid_eq e1 e2 e3 e4 e5 e6 e7 e8 e9] at h ⊢
  exact runOps_rerun
    (androidOps_sep path name appid aid ns csdk msdk tsdk vc vn a.sdk_path) h

/-- The platform dispatch on an android configuration is the android
handler. -/
theorem emergePlatform_android {m : Manifest} {p : RawPlatform}
    {tgt : List String} {fs : FS} {a : RawPlatformAndroid}
    (hcfg : p.configuration = some (RawPlatformConfiguration.Android a)) :
    emergePlatform m p tgt fs = emergeAndroid m a tgt fs := by
  unfold emergePlatform
  rw [hcfg]

/-- The platform dispatch on a configuration-less platform succeeds and
does nothing. -/
theorem emergePlatform_none {m : Manifest} {p : RawPlatform}
    {tgt : List String} {fs : FS} (hcfg : p.configuration = none) :
    emergePlatform m p tgt fs = (fs, none) := by
  unfold emergePlatform
  rw [hcfg]

/-- Re-running the platform dispatch on its successful result changes
nothing. -/
theorem emergePlatform_rerun {m : Manifest} {p : RawPlatform}
    {tgt : List String} {g fs₁ : FS}
    (h : emergePlatform m p tgt g = (fs₁, none)) :
    emergePlatform m p tgt fs₁ = (fs₁, none) := by
  cases hcfg : p.configuration with
  | none => rw [emergePlatform_none hcfg]
  | some cfg =>
    cases cfg with
    | Android a =>
      rw [emergePlatform_android hcfg] at h
      rw [emergePlatform_android hcfg]
      exact emergeAndroid_rerun h

/-- The platform dispatch never destroys a directory on success. -/
theorem emergePlatform_dir_stable {m : Manifest} {p : RawPlatform}
    {tgt : List String} {g fs₁ : FS}
    (h : emergePlatform m p tgt g = (fs₁, none)) {q : List String}
    (hd : g q = some Entry.dir) : fs₁ q = some Entry.dir := by
  cases hcfg : p.configuration with
  | none =>
    rw [emergePlatform_none hcfg] at h
    injection h with h1 h2
    rw [← h1]
    exact hd
  | some cfg =>
    cases cfg with
    | Android a =>
      rw [emergePlatform_android hcfg] at h
      obtain ⟨name, appid, aid, ns, csdk, msdk, tsdk, vc, vn,
        e1, e2, e3, e4, e5, e6, e7, e8, e9⟩ := emergeAndroid_success_fields h
      rw [emergeAndroid_eq e1 e2 e3 e4 e5 e6 e7 e8 e9] at h
      exact runOps_dir_stable h hd

/-- The platform dispatch leaves the root path absent when it was absent. -/
theorem emergePlatform_nil_none {m : Manifest} {p : RawPlatform}
    {tgt : List String} {g fs₁ : FS}
    (h : emergePlatform m p tgt g = (fs₁, none)) (hn : g [] = none) :
    fs₁ [] = none := by
  cases hcfg : p.configuration with
  | none =>
    rw [emergePlatform_none hcfg] at h
    injection h with h1 h2
    rw [← h1]
    exact hn
  | some cfg =>
    cases cfg with
    | Android a =>
      rw [emergePlatform_android hcfg] at h
      obtain ⟨name, appid, aid, ns, csdk, msdk, tsdk, vc, vn,
        e1, e2, e3, e4, e5, e6, e7, e8, e9⟩ := emergeAndroid_success_fields h
      rw [emergeAndroid_eq e1 e2 e3 e4 e5 e6 e7 e8 e9] at h
      rw [runOps_untouched h []
        (androidOps_nil_untouched tgt name appid aid ns csdk msdk tsdk vc vn
          a.sdk_path)]
      exact hn

/-! ### Claim C5 -/

/-- C5: emission is idempotent. Emerging into a fresh directory (a
successful run with updates disallowed) and then emerging again with
updates allowed and the unchanged manifest returns the filesystem
untouched; and each write is content-diffed: `update_file` leaves a file
holding the desired content unmodified and rewrites it only when the
existing content differs. -/
theorem c5_emerge_idempotent :
    (∀ (m : Manifest) (p : RawPlatform) (ov : Option (List String))
        (fs fs₁ : FS),
        emerge m p ov false fs = (fs₁, none) →
        emerge m p ov true fs₁ = (fs₁, none))
  ∧ (∀ (fs : FS) (q : List String) (c : String),
        fs q = some (Entry.file c) → updateFile fs q c = (fs, none))
  ∧ (∀ (fs : FS) (q : List String) (c old : String),
        fs q = some (Entry.file old) → old ≠ c →
        updateFile fs q c = (setFS fs q (some (Entry.file c)), none)) := by
  refine ⟨?_, ?_, ?_⟩
  · intro m p ov fs fs₁ h
    unfold emerge at h ⊢
    revert h
    generalize (match ov with
                | some q => q
                | none => pathComponents p.pathOrDefault) = tgt
    intro h
    unfold emergeAt at h ⊢
    cases hfs : fs tgt with
    | some e =>
      rw [hfs] at h
      cases e
      · simp at h
      · simp at h
    | none =>
      rw [hfs] at h
      cases hmk : createDirAll fs tgt with
      | none =>
        rw [hmk] at h
        simp at h
      | some g =>
        rw [hmk] at h
        by_cases htgt : tgt = []
        · subst htgt
          have hg : g = fs := by
            unfold createDirAll mkdirChain at hmk
            exact (Option.some.inj hmk).symm
          subst hg
          have hnil : fs₁ [] = none := emergePlatform_nil_none h hfs
          rw [hnil]
          exact emergePlatform_rerun h
        · have hdir : g tgt = some Entry.dir := by
            have := mkdirChain_all_dirs hmk tgt [] htgt (by simp)
            simpa using this
          have hdir1 : fs₁ tgt = some Entry.dir :=
            emergePlatform_dir_stable h hdir
          rw [hdir1]
          exact emergePlatform_rerun h
  · intro fs q c h
    exact updateFile_fix h
  · intro fs q c old h hne
    unfold updateFile
    rw [h]
    simp [hne]

/-- C5 witness: the idempotence theorem applied to the full manifest
emerged into an empty filesystem. -/
theorem c5_emerge_idempotent_witness :
    emerge fullManifest fullPlatform none true
        (emerge fullManifest fullPlatform none false fsEmpty).1
      = ((emerge fullManifest fullPlatform none false fsEmpty).1, none) :=
  c5_emerge_idempotent.1 fullManifest fullPlatform none fsEmpty
    (emerge fullManifest fullPlatform none false fsEmpty).1 (by rfl)

/-! ### Further helper lemmas for the error-path claims -/

/-- Every filesystem has unchanged files relative to itself. -/
theorem filesEq_refl (fs : FS) : filesEq fs fs := fun _ _ => Iff.rfl

/-- Directory creation changes no file entry. -/
theorem createDirAll_filesEq {fs g : FS} {tgt : List String}
    (h : createDirAll fs tgt = some g) : filesEq fs g := by
  intro q c
  constructor
  · intro hq
    rcases mkdirChain_changes h q with h1 | ⟨h1, h2⟩
    · rw [← h1, hq]
    · rw [hq] at h2
      cases h2
  · intro hq
    exact mkdirChain_keeps h hq

/-- With the namespace missing, the android emerge handler fails on one of
its four leading key unwraps, before any effect runs: the filesystem is
returned untouched. -/
theorem emergeAndroid_nspace_err (m : Manifest) {a : RawPlatformAndroid}
    (path : List String) (fs : FS) (hns : a.nspace = none) :
    ∃ e, emergeAndroid m a path fs = (fs, some e) := by
  unfold emergeAndroid
  cases m.raw.application.bind (fun x => x.name) with
  | none => exact ⟨_, rfl⟩
  | some name =>
  cases m.raw.application.bind (fun x => x.id) with
  | none => exact ⟨_, rfl⟩
  | some appid =>
  cases a.application_id with
  | none => exact ⟨_, rfl⟩
  | some aid =>
  rw [hns]
  exact ⟨_, rfl⟩

/-! ### Claim C7 -/

/-- C7: an android configuration lacking its namespace fails resolution
with `MissingKey ".namespace"`; resolution is eager, stopping at the first
missing required field in the fixed order namespace, application-id,
min-sdk (the SDK triple), ndk-level, sdk-path, and succeeds when all are
present; and emerging a manifest whose android configuration lacks the
namespace always errors while leaving every file entry of the filesystem
unchanged (only directories may have been created). -/
theorem c7_missing_namespace :
    (∀ (a : RawPlatformAndroid) (raw : Raw), a.nspace = none →
        a.view raw = Except.error (ErrorView.MissingKey ".namespace"))
  ∧ (∀ (a : RawPlatformAndroid) (raw : Raw) (ns : String),
        a.nspace = some ns → resolvedAppId a raw = none →
        a.view raw = Except.error (ErrorView.MissingKey ".application-id"))
  ∧ (∀ (a : RawPlatformAndroid) (raw : Raw) (ns appid : String),
        a.nspace = some ns → resolvedAppId a raw = some appid →
        a.min_sdk = none → a.target_sdk = none → a.compile_sdk = none →
        a.view raw = Except.error (ErrorView.MissingKey ".min-sdk"))
  ∧ (∀ (a : RawPlatformAndroid) (raw : Raw) (ns appid : String)
        (trip : Nat × Nat × Nat),
        a.nspace = some ns → resolvedAppId a raw = some appid →
        sdkTriple a.min_sdk a.target_sdk a.compile_sdk = Except.ok trip →
        a.ndk_level = none →
        a.view raw = Except.error (ErrorView.MissingKey ".ndk-level"))
  ∧ (∀ (a : RawPlatformAndroid) (raw : Raw) (ns appid : String)
        (trip : Nat × Nat × Nat) (ndk : Nat),
        a.nspace = some ns → resolvedAppId a raw = some appid →
        sdkTriple a.min_sdk a.target_sdk a.compile_sdk = Except.ok trip →
        a.ndk_level = some ndk → a.sdk_path = none →
        a.view raw = Except.error (ErrorView.MissingKey ".sdk-path"))
  ∧ (∀ (a : RawPlatformAndroid) (raw : Raw) (ns appid : String)
        (trip : Nat × Nat × Nat) (ndk : Nat) (sp : String),
        a.nspace = some ns → resolvedAppId a raw = some appid →
        sdkTriple a.min_sdk a.target_sdk a.compile_sdk = Except.ok trip →
        a.ndk_level = some ndk → a.sdk_path = some sp →
        ∃ v, a.view raw = Except.ok v)
  ∧ (∀ (m : Manifest) (p : RawPlatform) (a : RawPlatformAndroid)
        (ov : Option (List String)) (u : Bool) (fs : FS),
        p.configuration = some (RawPlatformConfiguration.Android a) →
        a.nspace = none →
        ∃ fs' e, emerge m p ov u fs = (fs', some e) ∧ filesEq fs fs') := by
  refine ⟨view_missing_nspace, view_missing_appid, view_missing_minsdk,
    view_missing_ndk, view_missing_sdkpath, view_ok, ?_⟩
  intro m p a ov u fs hcfg hns
  unfold emerge emergeAt
  generalize (match ov with
              | some q => q
              | none => pathComponents p.pathOrDefault) = tgt
  cases hfs : fs tgt with
  | some e0 =>
    cases e0 with
    | dir =>
      cases u with
      | false => exact ⟨fs, EmergeError.Already, rfl, filesEq_refl fs⟩
      | true =>
        obtain ⟨e, he⟩ := emergeAndroid_nspace_err m tgt fs hns
        refine ⟨fs, e, ?_, filesEq_refl fs⟩
        show emergePlatform m p tgt fs = (fs, some e)
        rw [emergePlatform_android hcfg]
        exact he
    | file c =>
      exact ⟨fs, EmergeError.PlatformDirectory tgt, rfl, filesEq_refl fs⟩
  | none =>
    cases hmk : createDirAll fs tgt with
    | none =>
      exact ⟨fs, EmergeError.DirectoryCreation tgt, rfl, filesEq_refl fs⟩
    | some g =>
      obtain ⟨e, he⟩ := emergeAndroid_nspace_err m tgt g hns
      refine ⟨g, e, ?_, createDirAll_filesEq hmk⟩
      show emergePlatform m p tgt g = (g, some e)
      rw [emergePlatform_android hcfg]
      exact he

/-- C7 witness: the order theorem applied at concrete configurations and
the emerge part applied at a namespace-less android manifest. -/
theorem c7_missing_namespace_witness :
    ({ c1Android with nspace := none } : RawPlatformAndroid).view c1Raw
      = Except.error (ErrorView.MissingKey ".namespace")
  ∧ c1Android.view { version := 1, application := none, platform := [] }
      = Except.error (ErrorView.MissingKey ".application-id")
  ∧ (∃ fs' e,
      emerge { raw := { version := 1, application := none, platform := [] } }
        { id := "android", path := some "p",
          configuration := some (RawPlatformConfiguration.Android
            { c1Android with nspace := none }) }
        none false fsEmpty
        = (fs', some e) ∧ filesEq fsEmpty fs') := by
  refine ⟨c7_missing_namespace.1 _ _ (by rfl), ?_, ?_⟩
  · exact c7_missing_namespace.2.1 c1Android
      { version := 1, application := none, platform := [] }
      "com.example" (by rfl) (by rfl)
  · exact c7_missing_namespace.2.2.2.2.2.2
      { raw := { version := 1, application := none, platform := [] } }
      { id := "android", path := some "p",
        configuration := some (RawPlatformConfiguration.Android
          { c1Android with nspace := none }) }
      { c1Android with nspace := none } none false fsEmpty (by rfl) (by rfl)

/-! ### Claim C9 -/

/-- C9: `sdk-path` is not required by emerge. With every key that
`emerge_android` unwraps present, no missing-key error can be raised (in
particular none for sdk-path: effect errors are filesystem errors); with
`sdk-path` absent a successful emerge leaves no `local.properties` -- the
handler removes a pre-existing one instead of writing it; removing a
non-existent file is not an error; and concretely, emerging the
sdk-path-less manifest over a target holding a stale `local.properties`
succeeds and removes it. -/
theorem c9_sdk_path_optional :
    (∀ (m : Manifest) (a : RawPlatformAndroid) (path : List String)
        (fs fs₁ : FS) (e : EmergeError) (k : String),
        (m.raw.application.bind fun x => x.name).isSome →
        (m.raw.application.bind fun x => x.id).isSome →
        a.application_id.isSome → a.nspace.isSome → a.compile_sdk.isSome →
        a.min_sdk.isSome → a.target_sdk.isSome → a.version_code.isSome →
        a.version_name.isSome →
        emergeAndroid m a path fs = (fs₁, some e) →
        e ≠ EmergeError.ManifestKey k)
  ∧ (∀ (m : Manifest) (a : RawPlatformAndroid) (path : List String)
        (fs fs₁ : FS),
        a.sdk_path = none →
        emergeAndroid m a path fs = (fs₁, none) →
        fs₁ (path ++ ["local.properties"]) = none)
  ∧ (∀ (fs : FS) (q : List String), fs q = none → unlinkFile fs q = (fs, none))
  ∧ ((emerge c9Manifest c9Platform none true fsDirPWithLocal).2 = none
      ∧ (emerge c9Manifest c9Platform none true fsDirPWithLocal).1
          ["p", "local.properties"] = none) := by
  refine ⟨?_, ?_, ?_, by rfl, by rfl⟩
  · intro m a path fs fs₁ e k h1 h2 h3 h4 h5 h6 h7 h8 h9 hrun
    obtain ⟨name, e1⟩ := Option.isSome_iff_exists.mp h1
    obtain ⟨appid, e2⟩ := Option.isSome_iff_exists.mp h2
    obtain ⟨aid, e3⟩ := Option.isSome_iff_exists.mp h3
    obtain ⟨ns, e4⟩ := Option.isSome_iff_exists.mp h4
    obtain ⟨csdk, e5⟩ := Option.isSome_iff_exists.mp h5
    obtain ⟨msdk, e6⟩ := Option.isSome_iff_exists.mp h6
    obtain ⟨tsdk, e7⟩ := Option.isSome_iff_exists.mp h7
    obtain ⟨vc, e8⟩ := Option.isSome_iff_exists.mp h8
    obtain ⟨vn, e9⟩ := Option.isSome_iff_exists.mp h9
    rw [emergeAndroid_eq e1 e2 e3 e4 e5 e6 e7 e8 e9] at hrun
    exact runOps_no_manifestKey hrun k
  · intro m a path fs fs₁ hsp h
    obtain ⟨name, appid, aid, ns, csdk, msdk, tsdk, vc, vn,
      e1, e2, e3, e4, e5, e6, e7, e8, e9⟩ := emergeAndroid_success_fields h
    rw [emergeAndroid_eq e1 e2 e3 e4 e5 e6 e7 e8 e9, hsp] at h
    unfold androidOps at h
    obtain ⟨g1, hop1, h⟩ := runOps_split h
    obtain ⟨g2, hop2, h⟩ := runOps_split h
    have hlp : g2 (path ++ ["local.properties"]) = none := unlinkFile_at hop2
    have huntouched :
        fs₁ (path ++ ["local.properties"])
          = g2 (path ++ ["local.properties"]) := by
      refine runOps_untouched h _ ?_
      intro op hmem
      simp only [List.mem_cons, List.not_mem_nil, or_false] at hmem
      rcases hmem with rfl | rfl | rfl | rfl | rfl | rfl | rfl | rfl | rfl
        | rfl | rfl | rfl | rfl <;>
        first
          | exact nt_write (by simp)
          | exact nt_mkdir (by simp [pathLe_cons_cons])
          | (simp only [List.append_assoc]
             first
               | exact nt_write (by simp)
               | exact nt_mkdir (by simp [pathLe_cons_cons]))
    rw [huntouched, hlp]
  · intro fs q h
    exact unlinkFile_fix h

/-- C9 witness: the generic parts applied at concrete inputs -- a failing
emerge whose error is a file error (not a missing key), the concrete
successful run with its `local.properties` removed, and unlinking a file
missing from the empty filesystem. -/
theorem c9_sdk_path_optional_witness :
    (some (EmergeError.FileUpdate ["p", "gradle.properties"])
        = some (EmergeError.FileUpdate ["p", "gradle.properties"])
      ∧ EmergeError.FileUpdate ["p", "gradle.properties"]
          ≠ EmergeError.ManifestKey "platform.android.sdk-path")
  ∧ (emergeAndroid c9Manifest c9Android ["p"] fsDirPWithLocal).1
      ["p", "local.properties"] = none
  ∧ unlinkFile fsEmpty ["p"] = (fsEmpty, none) := by
  refine ⟨⟨rfl, ?_⟩, ?_, ?_⟩
  · exact c9_sdk_path_optional.1 c9Manifest c9Android ["p"] fsEmpty fsEmpty
      (EmergeError.FileUpdate ["p", "gradle.properties"])
      "platform.android.sdk-path"
      (by rfl) (by rfl) (by rfl) (by rfl) (by rfl) (by rfl) (by rfl)
      (by rfl) (by rfl) (by rfl)
  · exact c9_sdk_path_optional.2.1 c9Manifest c9Android ["p"]
      fsDirPWithLocal
      (emergeAndroid c9Manifest c9Android ["p"] fsDirPWithLocal).1
      (by rfl) (by rfl)
  · exact c9_sdk_path_optional.2.2.1 fsEmpty ["p"] (by rfl)

/-! ### Claim C1 -/

/-- C1 counterexample: emerging the end-to-end scenario manifest does not
succeed -- `emerge_android` reads the raw manifest keys without applying
the view defaults, and the scenario manifest has no `application.name`, so
emerge fails with that missing key instead of producing any file. -/
theorem c1_emerge_counterexample :
    (emerge c1Manifest c1Platform none false fsEmpty).2
      = some (EmergeError.ManifestKey "application.name") := by
  rfl

/-- C1 (amended): resolution of the scenario manifest behaves as claimed --
`application_id` defaults to `"app"`, the SDK triple resolves to
`(21, 21, 21)`, `version_code` to `1`, `version_name` to `"0.1.0"` -- but
emerge on that platform fails with the missing raw key
`application.name`, because `emerge_android` unwraps raw keys and applies
no view defaults. When every raw key emerge requires is present (with
`sdk-path = "/opt/sdk"`), emerge succeeds and writes a `local.properties`
whose content contains the line `sdk.dir=/opt/sdk`. -/
theorem c1_end_to_end_amended :
    c1Android.view c1Raw = Except.ok
      { application_id := "app", nspace := "com.example", compile_sdk := 21,
        min_sdk := 21, target_sdk := 21, ndk_level := 25, version_code := 1,
        version_name := "0.1.0", sdk_path := "/opt/sdk" }
  ∧ (emerge c1Manifest c1Platform none false fsEmpty).2
      = some (EmergeError.ManifestKey "application.name")
  ∧ (emerge fullManifest fullPlatform none false fsEmpty).2 = none
  ∧ (emerge fullManifest fullPlatform none false fsEmpty).1
      ["p", "local.properties"]
      = some (Entry.file (localPropertiesContent "/opt/sdk"))
  ∧ (∃ pre post : String,
      localPropertiesContent "/opt/sdk"
        = pre ++ ("sdk.dir=" ++ "/opt/sdk" ++ "\n") ++ post) := by
  refine ⟨by rfl, by rfl, by rfl, by rfl,
    ⟨"# Generated by osiris-platform\n", "", by rfl⟩⟩
